import Mathlib

/-! Weather inference engine of `script_enhanced_final.js`.

A shallow embedding of the decision logic of the weather dashboard script:

* `displayForecast`: one representative forecast point per calendar day,
* `checkWeatherAlerts`: the advisories raised for an observation,
* `generateActivitySuggestions`: the activity rule table,
* `generateClothingRecommendations`: the outfit profile and its accessories,
* `generateBotResponse`: the keyword-driven reply of the chatbot,
* `generateAirQualityData`: the band of the mock air-quality index,
* `toggleTemperatureUnit`: the conversion of the displayed temperatures.

Conventions of the embedding.

* JavaScript numbers that are only compared against thresholds are rationals
  (`ℚ`); every finite double is a rational, and `NaN` / infinities are outside
  the model.
* JavaScript strings are Lean strings; `includes` is the substring test on the
  character lists and `toLowerCase` lowers the ASCII letters.
* `Math.random()` is a stream of rationals, `RandomSource`, read in call order; a
  function that draws returns the stream left after it.
* A JavaScript value that is a string or `undefined` is an `Option String`.
* DOM effects are returned as data: `showWeatherAlert(title, message)` becomes an
  `Alert` appended to the list of emitted alerts, the cards appended to a
  container become the list of values the cards are built from.
-/

namespace WeatherApp

/-! ## Strings -/

/-- `s.includes(sub)` on character lists: `sub` occurs as a contiguous block of `s`. -/
def includesChars (sub : List Char) : List Char → Bool
  | [] => sub.isPrefixOf []
  | c :: cs => sub.isPrefixOf (c :: cs) || includesChars sub cs

/-- JavaScript `s.includes(sub)`. -/
def includes (s sub : String) : Bool :=
  includesChars sub.data s.data

/-- JavaScript `s.toLowerCase()`, on the ASCII letters. -/
def toLowerCase (s : String) : String :=
  String.mk (s.data.map Char.toLower)

/-- JavaScript `Math.round`: the nearest integer, halves rounded towards `+∞`. -/
def mathRound (x : ℚ) : ℤ :=
  Rat.floor (x + 1 / 2)

/-! ## Observations -/

/-- The fields of the OpenWeatherMap current-weather record read by the engine. -/
structure WeatherData where
  /-- Field `data.main.temp`, in °C. -/
  temp : ℚ
  /-- Field `data.main.humidity`. -/
  humidity : ℚ
  /-- Field `data.weather[0].main`. -/
  main : String
  /-- Field `data.weather[0].description`. -/
  description : String
  /-- Field `data.wind.speed`, in m/s. -/
  windSpeed : ℚ
  /-- Field `data.visibility`, in metres. -/
  visibility : ℚ
  deriving DecidableEq

/-! ## Activity suggestions -/

/-- One entry of an activity's `conditions` array.  Template literals that print a
number keep the number instead of its decimal rendering. -/
inductive Tag where
  /-- A string literal. -/
  | text (s : String)
  /-- Template `${Math.round(temp)}°C`. -/
  | roundedTemp (n : ℤ)
  /-- Template `Wind: ${windSpeed}m/s`. -/
  | windLabel (w : ℚ)
  /-- Template `${windSpeed}m/s`. -/
  | windSpeed (w : ℚ)
  /-- Template `${visibility.toFixed(1)}km`, the argument being the visibility in km. -/
  | visibilityKm (v : ℚ)
  deriving DecidableEq

/-- An activity object pushed by `generateActivitySuggestions`. -/
structure Activity where
  title : String
  icon : String
  description : String
  rating : ℕ
  conditions : List Tag
  gradient : String
  deriving DecidableEq

/-- The `Beach Day` object, pushed when `temp >= 25`. -/
def beachDay (temp : ℚ) : Activity :=
  { title := "Beach Day", icon := "🏖️",
    description := "Perfect weather for swimming, sunbathing, and beach volleyball!",
    rating := 5,
    conditions := [.text "Sunny", .text "Warm", .roundedTemp (mathRound temp)],
    gradient := "linear-gradient(135deg, #ffecd2 0%, #fcb69f 100%)" }

/-- The `Outdoor BBQ` object, pushed when `temp >= 25`. -/
def outdoorBBQ (temp : ℚ) : Activity :=
  { title := "Outdoor BBQ", icon := "🍖",
    description := "Great temperature for grilling and outdoor dining with friends.",
    rating := 5,
    conditions := [.text "Perfect Weather", .roundedTemp (mathRound temp)],
    gradient := "linear-gradient(135deg, #ff9a9e 0%, #fecfef 100%)" }

/-- The `Hiking & Nature Walk` object. -/
def hikingNatureWalk (temp : ℚ) : Activity :=
  { title := "Hiking & Nature Walk", icon := "🥾",
    description := "Ideal conditions for exploring trails and enjoying nature.",
    rating := 4,
    conditions := [.text "Comfortable", .text "Clear Skies", .roundedTemp (mathRound temp)],
    gradient := "linear-gradient(135deg, #a8edea 0%, #fed6e3 100%)" }

/-- The `Cycling Adventure` object. -/
def cyclingAdventure (windSpeed : ℚ) : Activity :=
  { title := "Cycling Adventure", icon := "🚴",
    description := "Perfect temperature and conditions for a bike ride.",
    rating := 4,
    conditions := [.text "Mild Weather", .windLabel windSpeed],
    gradient := "linear-gradient(135deg, #d299c2 0%, #fef9d7 100%)" }

/-- The `Photography Walk` object; `visibility` is in km. -/
def photographyWalk (visibility : ℚ) : Activity :=
  { title := "Photography Walk", icon := "📸",
    description := "Great lighting and comfortable temperature for outdoor photography.",
    rating := 4,
    conditions := [.text "Good Visibility", .visibilityKm visibility],
    gradient := "linear-gradient(135deg, #a18cd1 0%, #fbc2eb 100%)" }

/-- The `Museum Visit` object. -/
def museumVisit : Activity :=
  { title := "Museum Visit", icon := "🏛️",
    description := "Perfect indoor activity to stay dry and learn something new.",
    rating := 4,
    conditions := [.text "Rainy Day", .text "Indoor Activity"],
    gradient := "linear-gradient(135deg, #667eea 0%, #764ba2 100%)" }

/-- The `Cozy Reading` object. -/
def cozyReading : Activity :=
  { title := "Cozy Reading", icon := "📚",
    description := "Ideal weather for staying in with a good book and hot tea.",
    rating := 5,
    conditions := [.text "Relaxing", .text "Indoor"],
    gradient := "linear-gradient(135deg, #fad0c4 0%, #ffd1ff 100%)" }

/-- The `Winter Sports` object. -/
def winterSports (temp : ℚ) : Activity :=
  { title := "Winter Sports", icon := "⛷️",
    description := "Perfect conditions for skiing, snowboarding, or building snowmen!",
    rating := 5,
    conditions := [.text "Snowy", .text "Winter Fun", .roundedTemp (mathRound temp)],
    gradient := "linear-gradient(135deg, #667eea 0%, #764ba2 100%)" }

/-- The `Kite Flying` object. -/
def kiteFlying (windSpeed : ℚ) : Activity :=
  { title := "Kite Flying", icon := "🪁",
    description := "Excellent wind conditions for flying kites in the park.",
    rating := 4,
    conditions := [.text "Good Wind", .windSpeed windSpeed],
    gradient := "linear-gradient(135deg, #96fbc4 0%, #f9f586 100%)" }

/-- The `Cooking Workshop` object, pushed unconditionally under the comment
`Always suggest some indoor alternatives`. -/
def cookingWorkshop : Activity :=
  { title := "Cooking Workshop", icon := "👨‍🍳",
    description := "Learn new recipes and cooking techniques indoors.",
    rating := 3,
    conditions := [.text "Indoor Activity", .text "Any Weather"],
    gradient := "linear-gradient(135deg, #ffecd2 0%, #fcb69f 100%)" }

/-- The array `activities` of `generateActivitySuggestions` before the final `slice`:
the objects pushed by the successive `if` statements, in push order. -/
def activityCandidates (data : WeatherData) : List Activity :=
  let temp := data.temp
  let weather := toLowerCase data.main
  let windSpeed := data.windSpeed
  let visibility := data.visibility / 1000
  (if temp ≥ 25 then [beachDay temp, outdoorBBQ temp] else [])
  ++ (if temp ≥ 15 ∧ temp ≤ 25 ∧ weather ≠ "rain" then
        [hikingNatureWalk temp, cyclingAdventure windSpeed] else [])
  ++ (if temp ≥ 10 ∧ temp ≤ 20 then [photographyWalk visibility] else [])
  ++ (if includes weather "rain" then [museumVisit, cozyReading] else [])
  ++ (if includes weather "snow" then [winterSports temp] else [])
  ++ (if windSpeed > 5 ∧ windSpeed < 15 then [kiteFlying windSpeed] else [])
  ++ [cookingWorkshop]

/-- Function `generateActivitySuggestions(data)`: the candidates, cut by
`activities.slice(0, 6)`. -/
def generateActivitySuggestions (data : WeatherData) : List Activity :=
  (activityCandidates data).take 6

/-- The titles of a list of activities. -/
def titles (as : List Activity) : List String :=
  as.map Activity.title

/-! ## Weather alerts -/

/-- The arguments of one call `showWeatherAlert(title, message)`. -/
structure Alert where
  title : String
  message : String
  deriving DecidableEq

/-- Constant `WEATHER_ALERTS`, as the entry list `Object.entries` enumerates (string keys
in insertion order). -/
def WEATHER_ALERTS : List (String × List String) :=
  [ ("extreme", ["tornado", "hurricane", "blizzard"]),
    ("severe", ["thunderstorm", "heavy rain", "snow"]),
    ("moderate", ["light rain", "cloudy", "fog"]) ]

/-- Callback test `conditions.some(condition => description.includes(condition))`. -/
def someIncluded (description : String) (conditions : List String) : Bool :=
  conditions.any fun condition => includes description condition

/-- The entry on which the `for ... of Object.entries(WEATHER_ALERTS)` loop breaks: the
first one whose conditions pass `someIncluded`; `none` when the loop runs to its end. -/
def matchedEntry (description : String) : Option (String × List String) :=
  WEATHER_ALERTS.find? fun entry => someIncluded description entry.2

/-- The alert `⚠️ Extreme Weather Alert!`; `rawDescription` is
`weatherData.weather[0].description` as received. -/
def extremeWeatherAlert (rawDescription : String) : Alert :=
  ⟨"⚠️ Extreme Weather Alert!", rawDescription ++ " detected. Take immediate precautions."⟩

/-- The alert `🌧️ Severe Weather Notice`. -/
def severeWeatherNotice (rawDescription : String) : Alert :=
  ⟨"🌧️ Severe Weather Notice", rawDescription ++ " expected. Plan accordingly."⟩

/-- The alert `🔥 Extreme Heat Warning!`. -/
def heatWarning : Alert :=
  ⟨"🔥 Extreme Heat Warning!",
    "Temperature is very high. Stay hydrated and avoid outdoor activities."⟩

/-- The alert `🧊 Extreme Cold Warning!`. -/
def coldWarning : Alert :=
  ⟨"🧊 Extreme Cold Warning!", "Temperature is very low. Dress warmly and be cautious of ice."⟩

/-- The alerts raised in the body of the loop for the entry it breaks on. -/
def entryAlerts (rawDescription : String) : Option (String × List String) → List Alert
  | none => []
  | some (severity, _) =>
    if severity = "extreme" then [extremeWeatherAlert rawDescription]
    else if severity = "severe" then [severeWeatherNotice rawDescription]
    else []

/-- The temperature statement of `checkWeatherAlerts`:
`if (temp > 35) ... else if (temp < -10) ...`. -/
def temperatureAlerts (temp : ℚ) : List Alert :=
  if temp > 35 then [heatWarning]
  else if temp < -10 then [coldWarning]
  else []

/-- The keyword loop of `checkWeatherAlerts`, run on the lowercased description. -/
def keywordAlerts (rawDescription : String) : List Alert :=
  entryAlerts rawDescription (matchedEntry (toLowerCase rawDescription))

/-- Function `checkWeatherAlerts(weatherData)`: the calls of `showWeatherAlert` it makes,
in call order. -/
def checkWeatherAlerts (weatherData : WeatherData) : List Alert :=
  let description := toLowerCase weatherData.description
  let temp := weatherData.temp
  temperatureAlerts temp ++ entryAlerts weatherData.description (matchedEntry description)

/-- The severity key on which the keyword loop of `checkWeatherAlerts` breaks. -/
def matchedSeverity (rawDescription : String) : Option String :=
  (matchedEntry (toLowerCase rawDescription)).map Prod.fst

/-! ## Daily forecast selection -/

/-- An element of `forecastData.list`, with the fields the forecast cards read. -/
structure ForecastItem where
  /-- Field `item.dt`, Unix time in seconds. -/
  dt : ℤ
  /-- Field `item.main.temp`. -/
  temp : ℚ
  /-- Field `item.weather[0].icon`. -/
  icon : String
  /-- Field `item.weather[0].description`. -/
  description : String
  deriving DecidableEq

/-- The local-time reading of the runtime: for a Unix time `dt`,
`dateKey dt` is `new Date(dt * 1000).toDateString()` (any type with decidable equality
stands for the date strings) and `hours dt` is `new Date(dt * 1000).getHours()`. -/
structure LocalClock (κ : Type) where
  dateKey : ℤ → κ
  hours : ℤ → ℤ

/-- The clock of a runtime whose local zone is UTC, the day number standing for the
date string. -/
def utcClock : LocalClock ℤ where
  dateKey dt := Int.fdiv dt 86400
  hours dt := Int.fdiv (Int.fmod dt 86400) 3600

/-- The object `dailyForecasts`: its own properties in insertion order (date strings are
never array indices, so `Object.values` enumerates them in that order). -/
abbrev DailyForecasts (κ : Type) := List (κ × ForecastItem)

/-- Property read `dailyForecasts[key]`; `none` is `undefined`. -/
def DailyForecasts.get {κ : Type} [DecidableEq κ] (key : κ) :
    DailyForecasts κ → Option ForecastItem
  | [] => none
  | (k, v) :: rest => if k = key then some v else DailyForecasts.get key rest

/-- Property write `dailyForecasts[key] = item`: an existing property keeps its place, a
new one goes last. -/
def DailyForecasts.set {κ : Type} [DecidableEq κ] (key : κ) (item : ForecastItem) :
    DailyForecasts κ → DailyForecasts κ
  | [] => [(key, item)]
  | (k, v) :: rest =>
    if k = key then (k, item) :: rest else (k, v) :: DailyForecasts.set key item rest

/-- Expression `Math.abs(date.getHours() - 12)` for the date of `item`. -/
def noonDistance {κ : Type} (clock : LocalClock κ) (item : ForecastItem) : ℤ :=
  |clock.hours item.dt - 12|

/-- The body of `forecastData.list.forEach(item => ...)`. -/
def selectStep {κ : Type} [DecidableEq κ] (clock : LocalClock κ)
    (dailyForecasts : DailyForecasts κ) (item : ForecastItem) : DailyForecasts κ :=
  let dateKey := clock.dateKey item.dt
  match dailyForecasts.get dateKey with
  | none => dailyForecasts.set dateKey item
  | some current =>
    if noonDistance clock item < noonDistance clock current then
      dailyForecasts.set dateKey item
    else dailyForecasts

/-- The object `dailyForecasts` after the `forEach` loop over `list`. -/
def groupByDay {κ : Type} [DecidableEq κ] (clock : LocalClock κ)
    (list : List ForecastItem) : DailyForecasts κ :=
  list.foldl (selectStep clock) []

/-- Function `displayForecast(forecastData)`: the forecasts a card is created for, in card
order, `Object.values(dailyForecasts).slice(0, 5)`. -/
def displayForecast {κ : Type} [DecidableEq κ] (clock : LocalClock κ)
    (list : List ForecastItem) : List ForecastItem :=
  ((groupByDay clock list).map Prod.snd).take 5

/-- The calendar day of a forecast point. -/
def dayOf {κ : Type} (clock : LocalClock κ) (item : ForecastItem) : κ :=
  clock.dateKey item.dt

/-! ## Clothing recommendations -/

/-- An entry of the `categories` array of `generateClothingRecommendations`. -/
structure ClothingCategory where
  name : String
  icon : String
  items : List String
  deriving DecidableEq

/-- An entry of the `accessories` array. -/
structure Accessory where
  icon : String
  name : String
  reason : String
  deriving DecidableEq

/-- The four variables `character`, `description`, `categories`, `accessories` as one
branch of the temperature `if` chain assigns them. -/
structure OutfitProfile where
  character : String
  description : String
  categories : List ClothingCategory
  accessories : List Accessory
  deriving DecidableEq

/-- The assignments of the branch `temp >= 30`. -/
def hotProfile : OutfitProfile :=
  { character := "🏖️",
    description :=
      "Very hot weather calls for minimal, breathable clothing to stay cool and comfortable.",
    categories :=
      [ ⟨"Tops", "sports_bar", ["Tank Top", "Light T-Shirt", "Crop Top", "Sleeveless Blouse"]⟩,
        ⟨"Bottoms", "sports_handball", ["Shorts", "Lightweight Skirt", "Linen Pants", "Capris"]⟩,
        ⟨"Footwear", "sports_tennis",
          ["Sandals", "Flip Flops", "Canvas Sneakers", "Breathable Shoes"]⟩ ],
    accessories :=
      [ ⟨"🕶️", "Sunglasses", "UV protection"⟩,
        ⟨"🧴", "Sunscreen", "Skin protection"⟩,
        ⟨"🧢", "Light Hat", "Sun protection"⟩,
        ⟨"💧", "Water Bottle", "Stay hydrated"⟩ ] }

/-- The assignments of the branch `temp >= 20`. -/
def warmProfile : OutfitProfile :=
  { character := "👕",
    description := "Warm and pleasant weather perfect for light, comfortable clothing.",
    categories :=
      [ ⟨"Tops", "sports_bar", ["T-Shirt", "Light Blouse", "Polo Shirt", "Short Sleeve Shirt"]⟩,
        ⟨"Bottoms", "sports_handball", ["Jeans", "Chinos", "Light Dress", "Casual Pants"]⟩,
        ⟨"Footwear", "sports_tennis", ["Sneakers", "Loafers", "Canvas Shoes", "Light Boots"]⟩ ],
    accessories :=
      [ ⟨"🕶️", "Sunglasses", "Bright weather"⟩,
        ⟨"🎒", "Light Bag", "Carry essentials"⟩,
        ⟨"⌚", "Watch", "Style accent"⟩ ] }

/-- The assignments of the branch `temp >= 10`. -/
def coolProfile : OutfitProfile :=
  { character := "🧥",
    description := "Cool weather requires layering for comfort throughout the day.",
    categories :=
      [ ⟨"Tops", "sports_bar", ["Long Sleeve Shirt", "Light Sweater", "Cardigan", "Hoodie"]⟩,
        ⟨"Bottoms", "sports_handball", ["Jeans", "Trousers", "Leggings", "Long Pants"]⟩,
        ⟨"Outerwear", "checkroom", ["Light Jacket", "Windbreaker", "Denim Jacket", "Vest"]⟩ ],
    accessories :=
      [ ⟨"🧣", "Light Scarf", "Extra warmth"⟩,
        ⟨"☂️", "Umbrella", "Weather protection"⟩,
        ⟨"👜", "Crossbody Bag", "Hands-free carrying"⟩ ] }

/-- The assignments of the final `else` branch. -/
def coldProfile : OutfitProfile :=
  { character := "🧥❄️",
    description :=
      "Cold weather demands warm, layered clothing to stay comfortable outdoors.",
    categories :=
      [ ⟨"Base Layer", "sports_bar", ["Thermal Shirt", "Long Underwear", "Wool Base Layer"]⟩,
        ⟨"Outerwear", "checkroom", ["Winter Coat", "Heavy Jacket", "Puffer Jacket", "Wool Coat"]⟩,
        ⟨"Accessories", "style", ["Warm Hat", "Gloves", "Scarf", "Warm Socks"]⟩ ],
    accessories :=
      [ ⟨"🧤", "Warm Gloves", "Hand protection"⟩,
        ⟨"🧣", "Thick Scarf", "Neck warmth"⟩,
        ⟨"👢", "Winter Boots", "Foot warmth"⟩,
        ⟨"🧢", "Warm Hat", "Head protection"⟩ ] }

/-- The temperature chain `if (temp >= 30) ... else if (temp >= 20) ... else if
(temp >= 10) ... else ...` of `generateClothingRecommendations`. -/
def baseProfile (temp : ℚ) : OutfitProfile :=
  if temp ≥ 30 then hotProfile
  else if temp ≥ 20 then warmProfile
  else if temp ≥ 10 then coolProfile
  else coldProfile

/-- The accessory put first by `accessories.unshift` when it rains. -/
def rainUmbrella : Accessory :=
  ⟨"☂️", "Umbrella", "Rain protection"⟩

/-- The accessory pushed when it rains. -/
def waterproofShoes : Accessory :=
  ⟨"🥾", "Waterproof Shoes", "Dry feet"⟩

/-- The accessory pushed when `windSpeed > 8`. -/
def windproofJacket : Accessory :=
  ⟨"🧥", "Windproof Jacket", "Wind protection"⟩

/-- The object returned by `generateClothingRecommendations`. -/
structure ClothingRecommendations where
  character : String
  description : String
  categories : List ClothingCategory
  accessories : List Accessory
  deriving DecidableEq

/-- The array `accessories` of `generateClothingRecommendations` before the final
`slice`: the base list, then `unshift` / `push` under `weather.includes('rain')`, then
`push` under `windSpeed > 8`. -/
def accessoryCandidates (data : WeatherData) : List Accessory :=
  let temp := data.temp
  let weather := toLowerCase data.main
  let windSpeed := data.windSpeed
  let accessories := (baseProfile temp).accessories
  let accessories :=
    if includes weather "rain" then (rainUmbrella :: accessories) ++ [waterproofShoes]
    else accessories
  if windSpeed > 8 then accessories ++ [windproofJacket] else accessories

/-- Function `generateClothingRecommendations(data)`. -/
def generateClothingRecommendations (data : WeatherData) : ClothingRecommendations :=
  let base := baseProfile data.temp
  { character := base.character,
    description := base.description,
    categories := base.categories,
    accessories := (accessoryCandidates data).take 6 }

/-! ## Observation records without wind data -/

/-- An observation record as the generators receive it: `wind` is `none` when
`data.wind` is `undefined` or `null`, and `some w` when `data.wind.speed` is `w`. -/
structure WeatherRecord where
  temp : ℚ
  humidity : ℚ
  main : String
  description : String
  wind : Option ℚ
  visibility : ℚ
  deriving DecidableEq

/-- The exceptions raised by the property reads of the generators. -/
inductive JsError where
  /-- The error `TypeError: Cannot read properties of undefined (reading 'speed')`. -/
  | typeError
  deriving DecidableEq

/-- Expression `data.wind.speed`: a `TypeError` when `data.wind` is `undefined` or
`null`. -/
def readWindSpeed : Option ℚ → Except JsError ℚ
  | none => .error .typeError
  | some w => .ok w

/-- The record with the wind speed `w`. -/
def WeatherRecord.withWind (record : WeatherRecord) (w : ℚ) : WeatherData :=
  ⟨record.temp, record.humidity, record.main, record.description, w, record.visibility⟩

/-- Function `generateActivitySuggestions(data)` on a record: the statement
`const windSpeed = data.wind.speed` runs before anything is pushed. -/
def generateActivitySuggestionsOfRecord (record : WeatherRecord) :
    Except JsError (List Activity) :=
  match readWindSpeed record.wind with
  | .error e => .error e
  | .ok windSpeed => .ok (generateActivitySuggestions (record.withWind windSpeed))

/-- Function `generateClothingRecommendations(data)` on a record: the statement
`const windSpeed = data.wind.speed` runs before the temperature chain. -/
def generateClothingRecommendationsOfRecord (record : WeatherRecord) :
    Except JsError ClothingRecommendations :=
  match readWindSpeed record.wind with
  | .error e => .error e
  | .ok windSpeed => .ok (generateClothingRecommendations (record.withWind windSpeed))

/-- Expression `data.wind?.speed || 0` of `updateProgressBars`, the guarded read of
the wind speed. -/
def guardedWindSpeed : Option ℚ → ℚ
  | none => 0
  | some w => w

/-! ## Chatbot replies -/

/-- The successive results of `Math.random()`. -/
abbrev RandomSource := ℕ → ℚ

/-- The random source after one call of `Math.random()`. -/
def RandomSource.next (rand : RandomSource) : RandomSource :=
  fun n => rand (n + 1)

/-- JavaScript array read `xs[i]` at an integer `i`; `none` is `undefined`. -/
def indexArray (xs : List String) (i : ℤ) : Option String :=
  if i < 0 then none else xs[i.toNat]?

/-- The string a template literal or `+` makes of a value that is a string or
`undefined`. -/
def jsToString : Option String → String
  | none => "undefined"
  | some s => s

/-- The decimal rendering `String(n)` of an integer `n` (of magnitude below `10^21`). -/
def numberToString (n : ℤ) : String :=
  toString n

/-- JavaScript truthiness of a value that is a string or `undefined`. -/
def truthy : Option String → Bool
  | none => false
  | some s => s != ""

/-- Array `chatbotResponses.greetings`. -/
def greetingResponses : List String :=
  [ "Hello! 👋 I'm here to help you with all your weather needs. What would you like to know?",
    "Hi there! 🌤️ Ready to explore the weather together? How can I assist you today?",
    "Welcome! ☀️ I'm your personal weather assistant. What can I help you discover?" ]

/-- Array `chatbotResponses.weather`. -/
def weatherResponses : List String :=
  [ "🌡️ The current weather looks great! Based on the data, you can expect comfortable conditions. Would you like specific details about temperature, humidity, or wind?",
    "🌤️ Today's weather is quite pleasant! The temperature is moderate and perfect for most activities. Need suggestions for what to do?",
    "☀️ Beautiful weather today! The conditions are ideal for outdoor activities. Shall I recommend some fun things to do?" ]

/-- Array `chatbotResponses.clothing`. -/
def clothingResponses : List String :=
  [ "👕 Based on the current temperature, I'd recommend layering! Light clothing with an option to add a jacket would be perfect.",
    "🧥 For today's weather, you'll want to dress comfortably. Think breathable fabrics and maybe bring a light sweater just in case!",
    "👗 Perfect weather for your favorite outfit! The temperature is just right - not too hot, not too cold. You'll be comfortable in most clothing choices." ]

/-- Array `chatbotResponses.activities`. -/
def activityResponses : List String :=
  [ "🏃‍♀️ Great weather for outdoor activities! How about a nice walk in the park, cycling, or maybe some outdoor sports?",
    "🏖️ The conditions are perfect for beach activities, hiking, or just enjoying time outdoors. What sounds fun to you?",
    "🚴‍♂️ With this lovely weather, you could try jogging, picnicking, outdoor photography, or visiting a local market!" ]

/-- Array `chatbotResponses.airQuality`. -/
def airQualityResponses : List String :=
  [ "🌿 The air quality today is looking good! It's safe for outdoor activities and exercise. Perfect day to get some fresh air!",
    "💨 Air quality levels are moderate today. Generally fine for most people, but sensitive individuals might want to limit prolonged outdoor exposure.",
    "🍃 Excellent air quality today! Perfect conditions for outdoor workouts, running, or spending extended time outside." ]

/-- Array `chatbotResponses.thanks`. -/
def thanksResponses : List String :=
  [ "You're very welcome! 😊 I'm always here to help with weather questions. Stay safe and enjoy your day!",
    "Happy to help! 🌟 Feel free to ask me anything else about weather, activities, or outfit suggestions anytime!",
    "My pleasure! ☀️ Hope you have a wonderful day ahead. Don't forget to check back for weather updates!" ]

/-- Array `chatbotResponses.unknown`. -/
def unknownResponses : List String :=
  [ "🤔 That's an interesting question! While I specialize in weather-related topics, I'd be happy to help with forecasts, activity suggestions, or clothing recommendations.",
    "💭 I'm not sure about that specific topic, but I'm great with weather advice! Ask me about today's conditions, what to wear, or fun activities to try!",
    "🌤️ I focus on weather and related topics. Would you like to know about current conditions, air quality, clothing suggestions, or activity recommendations?" ]

/-- Array `chatbotResponses.forecast`. -/
def forecastResponses : List String :=
  [ "📅 The 5-day forecast shows some interesting changes ahead! Expect a mix of sunny and partly cloudy days. Perfect for planning outdoor activities!",
    "🗓️ Looking at the upcoming days, you'll see stable weather patterns. Great for making weekend plans or outdoor events!",
    "📊 The extended forecast is looking quite pleasant! Temperatures will remain comfortable with minimal precipitation expected." ]

/-- Array `chatbotResponses.help`. -/
def helpResponses : List String :=
  [ "🆘 I'm here to help! I can assist with:\n\n🌡️ Current weather conditions\n👕 Clothing recommendations\n🏃‍♀️ Activity suggestions\n🌿 Air quality information\n📅 Weather forecasts\n\nWhat would you like to explore?",
    "💡 Here's what I can help you with:\n\n• Check current weather\n• Suggest appropriate clothing\n• Recommend activities\n• Provide air quality info\n• Show weather charts and maps\n\nJust ask me anything weather-related!",
    "🌟 I'm your weather companion! I can provide:\n\n✓ Real-time weather updates\n✓ Smart outfit suggestions\n✓ Fun activity recommendations\n✓ Air quality monitoring\n✓ Weather forecasts\n\nWhat interests you most?" ]

/-- Constant `chatbotResponses`, its properties in declaration order. -/
def chatbotResponses : List (String × List String) :=
  [ ("greetings", greetingResponses),
    ("weather", weatherResponses),
    ("clothing", clothingResponses),
    ("activities", activityResponses),
    ("airQuality", airQualityResponses),
    ("thanks", thanksResponses),
    ("unknown", unknownResponses),
    ("forecast", forecastResponses),
    ("help", helpResponses) ]

/-- Constant `personalityResponses`. -/
def personalityResponses : List String :=
  [ "That's a great question! 🤔",
    "Interesting! Let me think about that... 💭",
    "I love talking about weather! 🌤️",
    "Weather can be so fascinating! ⛅",
    "You're asking all the right questions! 🌟" ]

/-- The prompt returned by `generateWeatherSpecificResponse` when there is no current
observation. -/
def searchFirstPrompt : String :=
  "🔍 I'd love to give you specific weather advice! Please search for a location first so I can provide accurate recommendations."

/-- The clothing advice of the branch `temp > 30`. -/
def hotOutfitAdvice (temp : ℚ) : String :=
  "🌡️ It's " ++ numberToString (mathRound temp)
    ++ "°C - quite hot! I'd recommend light, breathable clothing like cotton t-shirts, shorts, and sandals. Don't forget sunglasses and sunscreen! ☀️"

/-- The clothing advice of the branch `temp > 20`. -/
def pleasantOutfitAdvice (temp : ℚ) : String :=
  "🌤️ Pleasant " ++ numberToString (mathRound temp)
    ++ "°C weather! Perfect for jeans and a t-shirt or light sweater. Comfortable and stylish! 👕"

/-- The clothing advice of the branch `temp > 10`. -/
def layeringOutfitAdvice (temp : ℚ) : String :=
  "🧥 At " ++ numberToString (mathRound temp)
    ++ "°C, layering is key! Try a long-sleeve shirt with a light jacket you can remove if it warms up. "

/-- The clothing advice of the final `else` branch. -/
def coldOutfitAdvice (temp : ℚ) : String :=
  "❄️ It's quite cold at " ++ numberToString (mathRound temp)
    ++ "°C! Bundle up with warm layers, a heavy coat, hat, and gloves to stay cozy! 🧣"

/-- The activity advice of the branch `weather.includes('rain')`. -/
def rainyActivityAdvice : String :=
  "🌧️ It's rainy outside! Perfect time for indoor activities like visiting a museum, reading a book, or trying a new recipe. Stay dry and cozy! 📚"

/-- The activity advice of the branch `temp > 25`. -/
def beachActivityAdvice (temp : ℚ) : String :=
  "🏖️ Beautiful " ++ numberToString (mathRound temp)
    ++ "°C weather! Perfect for beach activities, swimming, outdoor sports, or a picnic in the park! "

/-- The activity advice of the branch `temp > 15`. -/
def hikingActivityAdvice (temp : ℚ) : String :=
  "🚶‍♀️ Great " ++ numberToString (mathRound temp)
    ++ "°C weather for hiking, cycling, outdoor photography, or exploring local attractions! 🚴‍♂️"

/-- The reply of `generateBotResponse` to a text with `hot`, `cold` or `warm`;
`clothing` is the value of `getRandomResponse('clothing')`. -/
def temperatureReply (temp : ℚ) (clothing : Option String) : String :=
  "🌡️ Currently it's " ++ numberToString (mathRound temp) ++ "°C outside! "
    ++ (if temp > 25 then "It's quite warm" else if temp < 10 then "It's quite cool"
        else "The temperature is comfortable")
    ++ ". " ++ jsToString clothing

/-- The reply of `generateBotResponse` to a text with `rain`, `sunny` or `cloudy`;
`general` is the value of `getRandomResponse('weather')`. -/
def conditionReply (weather : String) (general : Option String) : String :=
  "🌤️ The current weather is " ++ weather ++ ". " ++ jsToString general

/-- Property read `chatbotResponses[category]`; `none` is `undefined`. -/
def chatbotResponsesAt (category : String) : Option (List String) :=
  chatbotResponses.lookup category

/-- Function `getRandomResponse(category)`, with the random source left after it. -/
def getRandomResponse (category : String) (rand : RandomSource) :
    Option String × RandomSource :=
  match chatbotResponsesAt category with
  | none => (indexArray unknownResponses 0, rand)
  | some responses =>
    (indexArray responses (Rat.floor (rand 0 * responses.length)), rand.next)

/-- Function `addPersonalityToResponse(response)`, with the random source left after
it; the literal `0.3` is the rational `3 / 10`. -/
def addPersonalityToResponse (response : Option String) (rand : RandomSource) :
    Option String × RandomSource :=
  if rand 0 < 3 / 10 then
    let personality :=
      indexArray personalityResponses (Rat.floor (rand 1 * personalityResponses.length))
    (some (jsToString personality ++ " " ++ jsToString response), rand.next.next)
  else (response, rand.next)

/-- Function `generateWeatherSpecificResponse(userMessage)`; `currentWeatherData` is the
global of that name, `none` when it is `null`. -/
def generateWeatherSpecificResponse (currentWeatherData : Option WeatherData)
    (userMessage : String) (rand : RandomSource) : Option String × RandomSource :=
  match currentWeatherData with
  | none => (some searchFirstPrompt, rand)
  | some data =>
    let temp := data.temp
    let weather := toLowerCase data.main
    if includes userMessage "outfit" || includes userMessage "clothing" then
      if temp > 30 then (some (hotOutfitAdvice temp), rand)
      else if temp > 20 then (some (pleasantOutfitAdvice temp), rand)
      else if temp > 10 then (some (layeringOutfitAdvice temp), rand)
      else (some (coldOutfitAdvice temp), rand)
    else if includes userMessage "activity" || includes userMessage "do" then
      if includes weather "rain" then (some rainyActivityAdvice, rand)
      else if temp > 25 then (some (beachActivityAdvice temp), rand)
      else if temp > 15 then (some (hikingActivityAdvice temp), rand)
      else getRandomResponse "weather" rand
    else getRandomResponse "weather" rand

/-- The condition of the first `if` of `generateBotResponse` on the lowercased
message. -/
def weatherSpecificTrigger (message : String) : Bool :=
  (includes message "wear" || includes message "clothing" || includes message "outfit"
      || includes message "dress")
    || (includes message "activity" || includes message "activities" || includes message "do"
      || includes message "outdoor")

/-- The statements of `generateBotResponse` after the first `if`: the keyword chain, the
replies that quote the current observation, the default reply. -/
def keywordDispatch (currentWeatherData : Option WeatherData) (message : String)
    (rand : RandomSource) : Option String :=
  if includes message "hello" || includes message "hi" || includes message "hey" then
    (getRandomResponse "greetings" rand).1
  else if includes message "weather" || includes message "temperature"
      || includes message "forecast" then
    (getRandomResponse "weather" rand).1
  else if includes message "wear" || includes message "clothing" || includes message "outfit"
      || includes message "dress" then
    (getRandomResponse "clothing" rand).1
  else if includes message "activity" || includes message "activities"
      || includes message "do" || includes message "outdoor" then
    (getRandomResponse "activities" rand).1
  else if includes message "air quality" || includes message "pollution"
      || includes message "air" then
    (getRandomResponse "airQuality" rand).1
  else if includes message "thank" || includes message "thanks" then
    (getRandomResponse "thanks" rand).1
  else if includes message "forecast" || includes message "5 day"
      || includes message "future" then
    (getRandomResponse "forecast" rand).1
  else if includes message "help" || includes message "what can you do"
      || includes message "assist" then
    (getRandomResponse "help" rand).1
  else
    let fallback :=
      let unknown := getRandomResponse "unknown" rand
      (addPersonalityToResponse unknown.1 unknown.2).1
    match currentWeatherData with
    | none => fallback
    | some data =>
      let temp := data.temp
      let weather := toLowerCase data.main
      if includes message "hot" || includes message "cold" || includes message "warm" then
        some (temperatureReply temp (getRandomResponse "clothing" rand).1)
      else if includes message "rain" || includes message "sunny"
          || includes message "cloudy" then
        some (conditionReply weather (getRandomResponse "weather" rand).1)
      else fallback

/-- Function `generateBotResponse(userMessage)`: the reply, a string or `undefined`
(`none`), for the current observation and the random source given. -/
def generateBotResponse (currentWeatherData : Option WeatherData) (rand : RandomSource)
    (userMessage : String) : Option String :=
  let message := toLowerCase userMessage
  if weatherSpecificTrigger message then
    let weatherResponse := generateWeatherSpecificResponse currentWeatherData userMessage rand
    if truthy weatherResponse.1 then
      (addPersonalityToResponse weatherResponse.1 weatherResponse.2).1
    else keywordDispatch currentWeatherData message weatherResponse.2
  else keywordDispatch currentWeatherData message rand

/-! ## Air quality -/

/-- An entry of the `metrics` array of `generateAirQualityData`. -/
structure AirMetric where
  icon : String
  value : ℤ
  label : String
  deriving DecidableEq

/-- An entry of the `pollen` array; `level` is an array read, `none` being `undefined`. -/
structure PollenEntry where
  type : String
  level : Option String
  icon : String
  deriving DecidableEq

/-- The object returned by `generateAirQualityData`. -/
structure AirQualityData where
  aqi : ℤ
  description : String
  advice : String
  metrics : List AirMetric
  pollen : List PollenEntry
  deriving DecidableEq

/-- The chain `if (baseAqi <= 50) ... else if (baseAqi <= 100) ... else if
(baseAqi <= 150) ... else ...` of `generateAirQualityData`: the description and the
advice it assigns. -/
def aqiBand (baseAqi : ℤ) : String × String :=
  if baseAqi ≤ 50 then
    ("Good", "Air quality is satisfactory. Ideal for outdoor activities.")
  else if baseAqi ≤ 100 then
    ("Moderate",
      "Air quality is acceptable for most people. Sensitive individuals should consider limiting outdoor activities.")
  else if baseAqi ≤ 150 then
    ("Unhealthy for Sensitive Groups",
      "Members of sensitive groups may experience health effects. Consider reducing outdoor activities.")
  else
    ("Unhealthy", "Everyone may begin to experience health effects. Limit outdoor activities.")

/-- Expression `Math.floor(Math.random() * n) + k` for the draw `r`. -/
def randomInt (r : ℚ) (n k : ℤ) : ℤ :=
  Rat.floor (r * n) + k

/-- Function `generateAirQualityData(weatherData)`; the argument is not read, the
eleven calls of `Math.random()` are the first eleven results of `rand`. -/
def generateAirQualityData (rand : RandomSource) : AirQualityData :=
  let baseAqi := randomInt (rand 0) 150 50
  let pollenLevels := ["Low", "Moderate", "High"]
  { aqi := baseAqi,
    description := (aqiBand baseAqi).1,
    advice := (aqiBand baseAqi).2,
    metrics :=
      [ ⟨"🌫️", randomInt (rand 1) 50 10, "PM2.5 μg/m³"⟩,
        ⟨"💨", randomInt (rand 2) 100 20, "PM10 μg/m³"⟩,
        ⟨"⚠️", randomInt (rand 3) 200 50, "NO₂ μg/m³"⟩,
        ⟨"🏭", randomInt (rand 4) 300 100, "CO μg/m³"⟩,
        ⟨"☀️", randomInt (rand 5) 100 50, "O₃ μg/m³"⟩,
        ⟨"🌬️", randomInt (rand 6) 50 5, "SO₂ μg/m³"⟩ ],
    pollen :=
      [ ⟨"Tree Pollen", indexArray pollenLevels (Rat.floor (rand 7 * 3)), "🌳"⟩,
        ⟨"Grass Pollen", indexArray pollenLevels (Rat.floor (rand 8 * 3)), "🌱"⟩,
        ⟨"Weed Pollen", indexArray pollenLevels (Rat.floor (rand 9 * 3)), "🌿"⟩,
        ⟨"Mold Spores", indexArray pollenLevels (Rat.floor (rand 10 * 3)), "🍄"⟩ ] }

/-! ## Temperature unit toggle -/

/-- Expression `Math.round(currentTemp * 9/5 + 32)` of `toggleTemperatureUnit`. -/
def celsiusToFahrenheit (currentTemp : ℤ) : ℤ :=
  mathRound ((currentTemp : ℚ) * 9 / 5 + 32)

/-- Expression `Math.round((currentTemp - 32) * 5/9)` of `toggleTemperatureUnit`. -/
def fahrenheitToCelsius (currentTemp : ℤ) : ℤ :=
  mathRound (((currentTemp : ℚ) - 32) * 5 / 9)

/-- The state `toggleTemperatureUnit` reads and writes: the global `isMetric`, the
integers shown in the elements `temperature` and `feelsLike` (`none` while both are
empty; `displayWeather` fills both with `Math.round` values), and the text of the
element of class `unit`. -/
structure TemperaturePanel where
  isMetric : Bool
  readings : Option (ℤ × ℤ)
  unit : String
  deriving DecidableEq

/-- Function `toggleTemperatureUnit()`. -/
def toggleTemperatureUnit (panel : TemperaturePanel) : TemperaturePanel :=
  let isMetric := !panel.isMetric
  match panel.readings with
  | none => { panel with isMetric := isMetric }
  | some (currentTemp, currentFeelsLike) =>
    if isMetric then
      { isMetric := isMetric,
        readings := some (fahrenheitToCelsius currentTemp, fahrenheitToCelsius currentFeelsLike),
        unit := "°C" }
    else
      { isMetric := isMetric,
        readings := some (celsiusToFahrenheit currentTemp, celsiusToFahrenheit currentFeelsLike),
        unit := "°F" }

/-! ## Specification vocabulary -/

/-- The distinct elements of a list in the order of their first occurrence. -/
def firstSeen {κ : Type} [DecidableEq κ] : List κ → List κ
  | [] => []
  | k :: ks => k :: (firstSeen ks).filter (fun j => j ≠ k)

/-- Point `r` is the representative of its day in `list`: it occurs in `list`, every
point of its day before that occurrence is strictly farther from noon, and no point of
its day after it is closer to noon. -/
def IsRepresentative {κ : Type} (clock : LocalClock κ) (list : List ForecastItem)
    (r : ForecastItem) : Prop :=
  ∃ before after, list = before ++ r :: after ∧
    (∀ p ∈ before, dayOf clock p = dayOf clock r → noonDistance clock r < noonDistance clock p) ∧
    (∀ p ∈ after, dayOf clock p = dayOf clock r → noonDistance clock r ≤ noonDistance clock p)

/-- The property names of the object, in enumeration order. -/
def DailyForecasts.keys {κ : Type} (d : DailyForecasts κ) : List κ :=
  d.map Prod.fst

/-- The invariant of the `forEach` loop after the points `list` have been visited. -/
def LoopInvariant {κ : Type} [DecidableEq κ] (clock : LocalClock κ) (list : List ForecastItem)
    (d : DailyForecasts κ) : Prop :=
  d.keys = firstSeen (list.map (dayOf clock)) ∧
    ∀ key r, d.get key = some r → dayOf clock r = key ∧ IsRepresentative clock list r

/-- The severity bands of the alert table, `normal` standing for no match. -/
inductive SeverityBand where
  | extreme
  | severe
  | moderate
  | normal
  deriving DecidableEq

/-- The key of `WEATHER_ALERTS` a band stands for. -/
def SeverityBand.key : SeverityBand → Option String
  | .extreme => some "extreme"
  | .severe => some "severe"
  | .moderate => some "moderate"
  | .normal => none

/-- Keyword `keyword` occurs in `description` as a substring, letter case ignored. -/
def occursIgnoringCase (description keyword : String) : Bool :=
  includes (toLowerCase description) (toLowerCase keyword)

/-- The first band, in the order Extreme, Severe, Moderate, one of whose keywords
occurs in the description, letter case ignored; `normal` when none does. -/
def firstMatchingBand (description : String) : SeverityBand :=
  if ["tornado", "hurricane", "blizzard"].any (occursIgnoringCase description) then .extreme
  else if ["thunderstorm", "heavy rain", "snow"].any (occursIgnoringCase description) then .severe
  else if ["light rain", "cloudy", "fog"].any (occursIgnoringCase description) then .moderate
  else .normal

/-- A rule of the activity table: a predicate on the observation and the
recommendations the rule contributes when the predicate holds. -/
structure ActivityRule where
  satisfied : WeatherData → Bool
  recommendations : WeatherData → List Activity

/-- The activity rules in declaration order: Beach Day and Outdoor BBQ (`temp >= 25`);
Hiking and Cycling (`15 <= temp <= 25` and the condition is not `rain`); Photography
Walk (`10 <= temp <= 20`); Museum Visit and Cozy Reading (the condition contains
`rain`); Winter Sports (the condition contains `snow`); Kite Flying (`5 < wind < 15`);
Cooking Workshop (always). -/
def activityRules : List ActivityRule :=
  [ ⟨fun d => decide (d.temp ≥ 25), fun d => [beachDay d.temp, outdoorBBQ d.temp]⟩,
    ⟨fun d => decide (15 ≤ d.temp ∧ d.temp ≤ 25 ∧ toLowerCase d.main ≠ "rain"),
      fun d => [hikingNatureWalk d.temp, cyclingAdventure d.windSpeed]⟩,
    ⟨fun d => decide (10 ≤ d.temp ∧ d.temp ≤ 20),
      fun d => [photographyWalk (d.visibility / 1000)]⟩,
    ⟨fun d => includes (toLowerCase d.main) "rain", fun _ => [museumVisit, cozyReading]⟩,
    ⟨fun d => includes (toLowerCase d.main) "snow", fun d => [winterSports d.temp]⟩,
    ⟨fun d => decide (5 < d.windSpeed ∧ d.windSpeed < 15), fun d => [kiteFlying d.windSpeed]⟩,
    ⟨fun _ => true, fun _ => [cookingWorkshop]⟩ ]

/-- The recommendations of the satisfied rules, taken in declaration order. -/
def satisfiedRecommendations (d : WeatherData) : List Activity :=
  (activityRules.filter fun r => r.satisfied d).flatMap fun r => r.recommendations d

/-- The accessory list in the words of the specification: the umbrella first when it
rains, the base accessories of the band, the waterproof shoes when it rains, the
windproof jacket when the wind is above 8 m/s. -/
def declaredAccessories (d : WeatherData) : List Accessory :=
  (if includes (toLowerCase d.main) "rain" then [rainUmbrella] else [])
    ++ (baseProfile d.temp).accessories
    ++ (if includes (toLowerCase d.main) "rain" then [waterproofShoes] else [])
    ++ (if d.windSpeed > 8 then [windproofJacket] else [])

/-- Every result of `Math.random()` lies in `[0, 1)`. -/
def RandomSource.WellFormed (rand : RandomSource) : Prop :=
  ∀ n, 0 ≤ rand n ∧ rand n < 1

/-- The clothing keywords of the chatbot. -/
def clothingKeywords : List String :=
  ["wear", "clothing", "outfit", "dress"]

/-- The activity keywords of the chatbot. -/
def activityKeywords : List String :=
  ["activity", "activities", "do", "outdoor"]

/-- Some keyword of the list occurs in the message. -/
def mentionsAny (message : String) (keywords : List String) : Bool :=
  keywords.any fun keyword => includes message keyword

/-- The intent categories in checking order, Greeting, WeatherGeneral, Clothing,
Activities, AirQuality, Thanks, Forecast, Help, each with the key of its reply list and
its keyword set. -/
def intentKeywords : List (String × List String) :=
  [ ("greetings", ["hello", "hi", "hey"]),
    ("weather", ["weather", "temperature", "forecast"]),
    ("clothing", clothingKeywords),
    ("activities", activityKeywords),
    ("airQuality", ["air quality", "pollution", "air"]),
    ("thanks", ["thank", "thanks"]),
    ("forecast", ["forecast", "5 day", "future"]),
    ("help", ["help", "what can you do", "assist"]) ]

/-- The first category, in checking order, with a keyword occurring in the message. -/
def firstIntent (message : String) : Option String :=
  (intentKeywords.find? fun entry => mentionsAny message entry.2).map Prod.fst

/-- The four clothing sentences of the chatbot for a temperature. -/
def outfitAdvices (temp : ℚ) : List String :=
  [hotOutfitAdvice temp, pleasantOutfitAdvice temp, layeringOutfitAdvice temp,
    coldOutfitAdvice temp]

/-- A value that is a non-empty string. -/
def IsReply (value : Option String) : Prop :=
  ∃ s, value = some s ∧ s ≠ ""

/-- The keys of `chatbotResponses`. -/
def responseCategories : List String :=
  ["greetings", "weather", "clothing", "activities", "airQuality", "thanks", "unknown",
    "forecast", "help"]

/-- An ordered upper-bound scan: the band of the first bound that is at least the
score, and `last` when the score exceeds every bound. -/
def classifyIndex (score : ℤ) (bands : List (ℤ × String)) (last : String) : String :=
  match bands.find? fun band => decide (score ≤ band.1) with
  | some band => band.2
  | none => last

/-- The bounds of the air-quality bands below the last one. -/
def aqiBounds : List (ℤ × String) :=
  [(50, "Good"), (100, "Moderate"), (150, "Unhealthy for Sensitive Groups")]

/-- The accessory list for a base profile, given whether it rains and whether the wind
is above 8 m/s. -/
def accessoriesFor (profile : OutfitProfile) (rain wind : Bool) : List Accessory :=
  ((if rain then [rainUmbrella] else []) ++ profile.accessories
    ++ (if rain then [waterproofShoes] else [])
    ++ (if wind then [windproofJacket] else [])).take 6

/-- The condition categories of the data model, lowercased. -/
def standardConditions : List String :=
  ["clear", "clouds", "rain", "snow", "thunderstorm", "mist", "fog"]

/-- The objects pushed by `generateActivitySuggestions` before `Cooking Workshop`. -/
def activitiesBefore (data : WeatherData) : List Activity :=
  let temp := data.temp
  let weather := toLowerCase data.main
  let windSpeed := data.windSpeed
  let visibility := data.visibility / 1000
  (if temp ≥ 25 then [beachDay temp, outdoorBBQ temp] else [])
  ++ (if temp ≥ 15 ∧ temp ≤ 25 ∧ weather ≠ "rain" then
        [hikingNatureWalk temp, cyclingAdventure windSpeed] else [])
  ++ (if temp ≥ 10 ∧ temp ≤ 20 then [photographyWalk visibility] else [])
  ++ (if includes weather "rain" then [museumVisit, cozyReading] else [])
  ++ (if includes weather "snow" then [winterSports temp] else [])
  ++ (if windSpeed > 5 ∧ windSpeed < 15 then [kiteFlying windSpeed] else [])

/-- The keywords of the replies that quote the current observation. -/
def contextKeywords : List String :=
  ["hot", "cold", "warm", "rain", "sunny", "cloudy"]

/-- The first four characters of a string. -/
def head4 (s : String) : List Char :=
  s.data.take 4

/-- The strings a reply of the chatbot can begin with, other than a template of the
Greeting, Clothing, Activities, AirQuality, Thanks, Forecast and Help lists: the prompt,
the beginnings of the sentences that quote the observation, the WeatherGeneral and
Unknown templates, the personality phrases. -/
def replyStarts : List String :=
  [searchFirstPrompt, "🌡️ It's ", "🌤️ Pleasant ", "🧥 At ", "❄️ It's quite cold at ",
    "🏖️ Beautiful ", "🚶‍♀️ Great ", rainyActivityAdvice, "🌡️ Currently it's ", "🌤️ The current weather is "]
    ++ weatherResponses ++ unknownResponses ++ personalityResponses

/-! ## Sample inputs -/

/-- A forecast point at hour `hour` (UTC) of day number `day`. -/
def pointAt (day hour : ℤ) (temp : ℚ) : ForecastItem :=
  ⟨day * 86400 + hour * 3600, temp, "01d", "clear sky"⟩

/-- Three points of one day, at 9:00, 12:00 and 15:00. -/
def threeHours : List ForecastItem :=
  [pointAt 3 9 11, pointAt 3 12 14, pointAt 3 15 13]

/-- Two points of one day, at 10:00 and 14:00, both two hours from noon. -/
def tiedHours : List ForecastItem :=
  [pointAt 3 10 11, pointAt 3 14 14]

/-- Six points on six consecutive days, one per day. -/
def sixDays : List ForecastItem :=
  [pointAt 1 9 10, pointAt 2 9 11, pointAt 3 9 12, pointAt 4 9 13, pointAt 5 9 14,
    pointAt 6 9 15]

/-- An observation of 25 °C with snow and a wind of 10 m/s. -/
def warmSnow : WeatherData :=
  ⟨25, 60, "Snow", "light snow", 10, 8000⟩

/-- An observation of 30 °C under a clear sky. -/
def clearDay : WeatherData :=
  ⟨30, 40, "Clear", "clear sky", 3, 10000⟩

/-- An observation of 40 °C with a tornado reported. -/
def hotTornado : WeatherData :=
  ⟨40, 30, "Tornado", "tornado", 20, 5000⟩

/-- An observation of -20 °C under a clear sky. -/
def frost : WeatherData :=
  ⟨-20, 70, "Clear", "clear sky", 2, 10000⟩

/-- An observation of 20 °C with light rain. -/
def lightRain : WeatherData :=
  ⟨20, 80, "Rain", "light rain", 3, 9000⟩

/-- An observation of 20 °C with a thunderstorm. -/
def thunder : WeatherData :=
  ⟨20, 85, "Thunderstorm", "Thunderstorm with heavy rain", 6, 6000⟩

/-- An observation of -5 °C with a blizzard and snow. -/
def blizzardSnow : WeatherData :=
  ⟨-5, 90, "Snow", "Blizzard, heavy snow", 18, 300⟩

/-- An observation of 5 °C with rain and a wind of 12 m/s. -/
def coldRain : WeatherData :=
  ⟨5, 90, "Rain", "moderate rain", 12, 4000⟩

/-- An observation of 35 °C under a clear sky with a wind of 3 m/s. -/
def heatWave : WeatherData :=
  ⟨35, 30, "Clear", "clear sky", 3, 10000⟩

/-- A record of 22 °C under a clear sky that has no wind data. -/
def noWindRecord : WeatherRecord :=
  ⟨22, 50, "Clear", "clear sky", none, 10000⟩

/-- The random source whose every result is 0. -/
def alwaysZero : RandomSource :=
  fun _ => 0

/-- The random source whose every result is 1/2. -/
def alwaysHalf : RandomSource :=
  fun _ => 1 / 2

/-- An observation of exactly 30 °C under a clear sky. -/
def thirtyDegrees : WeatherData :=
  ⟨30, 45, "Clear", "clear sky", 2, 10000⟩

/-! ## Lemmas on the `dailyForecasts` object -/

section DailyForecasts

variable {κ : Type} [DecidableEq κ]

theorem get_eq_none_iff (key : κ) (d : DailyForecasts κ) :
    d.get key = none ↔ key ∉ d.keys := by
  induction d with
  | nil => simp [DailyForecasts.get, DailyForecasts.keys]
  | cons e rest ih =>
    obtain ⟨k, v⟩ := e
    by_cases h : k = key
    · simp [DailyForecasts.get, DailyForecasts.keys, h]
    · have h2 : ¬ key = k := fun h3 => h h3.symm
      simpa [DailyForecasts.get, DailyForecasts.keys, h, h2] using ih

theorem get_set (key key2 : κ) (item : ForecastItem) (d : DailyForecasts κ) :
    (d.set key item).get key2 = if key = key2 then some item else d.get key2 := by
  induction d with
  | nil => simp [DailyForecasts.get, DailyForecasts.set]
  | cons e rest ih =>
    obtain ⟨k, v⟩ := e
    by_cases h : k = key
    · subst h
      by_cases h2 : k = key2 <;> simp [DailyForecasts.get, DailyForecasts.set, h2]
    · by_cases h2 : k = key2
      · subst h2
        have h3 : ¬ key = k := fun h3 => h h3.symm
        simp [DailyForecasts.get, DailyForecasts.set, h, h3]
      · simp [DailyForecasts.get, DailyForecasts.set, h, h2, ih]

theorem set_of_not_mem (key : κ) (item : ForecastItem) (d : DailyForecasts κ)
    (h : key ∉ d.keys) : d.set key item = d ++ [(key, item)] := by
  induction d with
  | nil => simp [DailyForecasts.set]
  | cons e rest ih =>
    obtain ⟨k, v⟩ := e
    simp only [DailyForecasts.keys, List.map_cons, List.mem_cons, not_or] at h
    have h2 : ¬ k = key := fun h3 => h.1 h3.symm
    simp [DailyForecasts.set, h2, ih (by simpa [DailyForecasts.keys] using h.2)]

theorem keys_set_of_mem (key : κ) (item : ForecastItem) (d : DailyForecasts κ)
    (h : key ∈ d.keys) : (d.set key item).keys = d.keys := by
  induction d with
  | nil => simp [DailyForecasts.keys] at h
  | cons e rest ih =>
    obtain ⟨k, v⟩ := e
    by_cases h2 : k = key
    · simp [DailyForecasts.set, DailyForecasts.keys, h2]
    · have h3 : key ∈ DailyForecasts.keys rest := by
        simp only [DailyForecasts.keys, List.map_cons, List.mem_cons] at h
        rcases h with h | h
        · exact absurd h.symm h2
        · exact h
      have := ih h3
      simp only [DailyForecasts.keys] at this
      simp [DailyForecasts.set, DailyForecasts.keys, h2, this]

theorem get_of_mem (key : κ) (item : ForecastItem) (d : DailyForecasts κ)
    (hn : d.keys.Nodup) (h : (key, item) ∈ d) : d.get key = some item := by
  induction d with
  | nil => simp at h
  | cons e rest ih =>
    obtain ⟨k, v⟩ := e
    simp only [DailyForecasts.keys, List.map_cons, List.nodup_cons] at hn
    rcases List.mem_cons.1 h with h | h
    · simp only [Prod.mk.injEq] at h
      simp [DailyForecasts.get, h.1, h.2]
    · have hk : k ≠ key := by
        intro hk
        apply hn.1
        rw [hk]
        exact List.mem_map_of_mem Prod.fst h
      simp only [DailyForecasts.get, hk, if_false]
      exact ih hn.2 h

theorem mem_firstSeen (k : κ) (l : List κ) : k ∈ firstSeen l ↔ k ∈ l := by
  induction l with
  | nil => simp [firstSeen]
  | cons a l ih =>
    by_cases h : k = a
    · simp [firstSeen, h]
    · simp [firstSeen, h, List.mem_filter, ih]

theorem firstSeen_nodup (l : List κ) : (firstSeen l).Nodup := by
  induction l with
  | nil => simp [firstSeen]
  | cons a l ih =>
    simp only [firstSeen, List.nodup_cons]
    exact ⟨by simp [List.mem_filter], ih.filter _⟩

theorem firstSeen_append_singleton (l : List κ) (k : κ) :
    firstSeen (l ++ [k]) = if k ∈ l then firstSeen l else firstSeen l ++ [k] := by
  induction l with
  | nil => simp [firstSeen]
  | cons a l ih =>
    have e : firstSeen (a :: l ++ [k]) = a :: (firstSeen (l ++ [k])).filter (fun j => j ≠ a) := rfl
    have e2 : firstSeen (a :: l) = a :: (firstSeen l).filter (fun j => j ≠ a) := rfl
    rw [e, e2, ih]
    by_cases h : k ∈ l
    · simp [h]
    · by_cases h2 : k = a
      · subst h2
        simp [h, List.filter_append]
      · simp [h, h2, List.filter_append]

omit [DecidableEq κ] in
theorem isRepresentative_snoc (clock : LocalClock κ) (list : List ForecastItem)
    (r p : ForecastItem) (h : IsRepresentative clock list r)
    (hp : dayOf clock p = dayOf clock r → noonDistance clock r ≤ noonDistance clock p) :
    IsRepresentative clock (list ++ [p]) r := by
  obtain ⟨before, after, hl, hb, ha⟩ := h
  refine ⟨before, after ++ [p], by simp [hl], hb, ?_⟩
  intro q hq hday
  rcases List.mem_append.1 hq with hq | hq
  · exact ha q hq hday
  · simp only [List.mem_singleton] at hq
    subst hq
    exact hp hday

omit [DecidableEq κ] in
theorem isRepresentative_le (clock : LocalClock κ) (list : List ForecastItem)
    (r : ForecastItem) (h : IsRepresentative clock list r) :
    ∀ q ∈ list, dayOf clock q = dayOf clock r → noonDistance clock r ≤ noonDistance clock q := by
  obtain ⟨before, after, hl, hb, ha⟩ := h
  intro q hq hday
  subst hl
  simp only [List.mem_append, List.mem_cons] at hq
  rcases hq with hq | hq | hq
  · exact le_of_lt (hb q hq hday)
  · subst hq; exact le_refl _
  · exact ha q hq hday

omit [DecidableEq κ] in
theorem isRepresentative_mem (clock : LocalClock κ) (list : List ForecastItem)
    (r : ForecastItem) (h : IsRepresentative clock list r) : r ∈ list := by
  obtain ⟨before, after, hl, -, -⟩ := h
  simp [hl]

omit [DecidableEq κ] in
theorem isRepresentative_last (clock : LocalClock κ) (list : List ForecastItem)
    (p : ForecastItem)
    (h : ∀ q ∈ list, dayOf clock q = dayOf clock p → noonDistance clock p < noonDistance clock q) :
    IsRepresentative clock (list ++ [p]) p :=
  ⟨list, [], rfl, h, by simp⟩

theorem loopInvariant_nil (clock : LocalClock κ) : LoopInvariant clock [] ([] : DailyForecasts κ) := by
  refine ⟨by simp [DailyForecasts.keys, firstSeen], ?_⟩
  intro key r h
  simp [DailyForecasts.get] at h

theorem loopInvariant_step (clock : LocalClock κ) (list : List ForecastItem)
    (d : DailyForecasts κ) (p : ForecastItem) (h : LoopInvariant clock list d) :
    LoopInvariant clock (list ++ [p]) (selectStep clock d p) := by
  obtain ⟨hkeys, hrep⟩ := h
  have hmem : clock.dateKey p.dt ∈ d.keys ↔ dayOf clock p ∈ list.map (dayOf clock) := by
    rw [hkeys, mem_firstSeen]; rfl
  cases hget : d.get (clock.dateKey p.dt) with
  | none =>
    have hstep : selectStep clock d p = d.set (clock.dateKey p.dt) p := by
      simp only [selectStep, hget]
    rw [hstep]
    have hnot : clock.dateKey p.dt ∉ d.keys := (get_eq_none_iff _ _).1 hget
    have hnot2 : dayOf clock p ∉ list.map (dayOf clock) := fun hc => hnot (hmem.2 hc)
    constructor
    · rw [set_of_not_mem _ _ _ hnot, List.map_append]
      simp only [List.map_cons, List.map_nil]
      rw [firstSeen_append_singleton, if_neg hnot2, ← hkeys]
      simp [DailyForecasts.keys, dayOf]
    · intro key r hr
      rw [get_set] at hr
      by_cases hk : clock.dateKey p.dt = key
      · simp only [hk, if_true, Option.some.injEq] at hr
        subst hr
        refine ⟨hk, isRepresentative_last clock list p ?_⟩
        intro q hq hday
        exact absurd (hday ▸ List.mem_map_of_mem (dayOf clock) hq) hnot2
      · simp only [hk, if_false] at hr
        obtain ⟨h1, h2⟩ := hrep key r hr
        refine ⟨h1, isRepresentative_snoc clock list r p h2 ?_⟩
        intro hday
        exact absurd (hday.trans h1) hk
  | some current =>
    have hin : clock.dateKey p.dt ∈ d.keys := by
      by_contra hc
      rw [(get_eq_none_iff _ _).2 hc] at hget
      exact Option.noConfusion hget
    have hin2 : dayOf clock p ∈ list.map (dayOf clock) := hmem.1 hin
    obtain ⟨hc1, hc2⟩ := hrep _ _ hget
    by_cases hlt : noonDistance clock p < noonDistance clock current
    · have hstep : selectStep clock d p = d.set (clock.dateKey p.dt) p := by
        simp only [selectStep, hget, if_pos hlt]
      rw [hstep]
      constructor
      · rw [keys_set_of_mem _ _ _ hin, List.map_append]
        simp only [List.map_cons, List.map_nil]
        rw [firstSeen_append_singleton, if_pos hin2, hkeys]
      · intro key r hr
        rw [get_set] at hr
        by_cases hk : clock.dateKey p.dt = key
        · simp only [hk, if_true, Option.some.injEq] at hr
          subst hr
          refine ⟨hk, isRepresentative_last clock list p ?_⟩
          intro q hq hday
          exact lt_of_lt_of_le hlt
            (isRepresentative_le clock list current hc2 q hq (hday.trans hc1.symm))
        · simp only [hk, if_false] at hr
          obtain ⟨h1, h2⟩ := hrep key r hr
          refine ⟨h1, isRepresentative_snoc clock list r p h2 ?_⟩
          intro hday
          exact absurd (hday.trans h1) hk
    · have hstep : selectStep clock d p = d := by
        simp only [selectStep, hget, if_neg hlt]
      rw [hstep]
      constructor
      · rw [List.map_append]
        simp only [List.map_cons, List.map_nil]
        rw [firstSeen_append_singleton, if_pos hin2, hkeys]
      · intro key r hr
        obtain ⟨h1, h2⟩ := hrep key r hr
        refine ⟨h1, isRepresentative_snoc clock list r p h2 ?_⟩
        intro hday
        have hkey : key = clock.dateKey p.dt := h1.symm.trans hday.symm
        rw [hkey, hget] at hr
        simp only [Option.some.injEq] at hr
        subst hr
        exact not_lt.1 hlt

theorem loopInvariant_foldl (clock : LocalClock κ) (rest : List ForecastItem) :
    ∀ (list : List ForecastItem) (d : DailyForecasts κ), LoopInvariant clock list d →
      LoopInvariant clock (list ++ rest) (rest.foldl (selectStep clock) d) := by
  induction rest with
  | nil => intro list d h; simpa using h
  | cons p rest ih =>
    intro list d h
    have := ih (list ++ [p]) (selectStep clock d p) (loopInvariant_step clock list d p h)
    simpa using this

theorem loopInvariant_groupByDay (clock : LocalClock κ) (list : List ForecastItem) :
    LoopInvariant clock list (groupByDay clock list) := by
  have := loopInvariant_foldl clock list [] [] (loopInvariant_nil clock)
  simpa [groupByDay] using this

theorem groupByDay_keys (clock : LocalClock κ) (list : List ForecastItem) :
    (groupByDay clock list).keys = firstSeen (list.map (dayOf clock)) :=
  (loopInvariant_groupByDay clock list).1

theorem groupByDay_entry (clock : LocalClock κ) (list : List ForecastItem) (key : κ)
    (r : ForecastItem) (h : (key, r) ∈ groupByDay clock list) :
    dayOf clock r = key ∧ IsRepresentative clock list r := by
  have hn : (groupByDay clock list).keys.Nodup := by
    rw [groupByDay_keys]; exact firstSeen_nodup _
  exact (loopInvariant_groupByDay clock list).2 key r (get_of_mem key r _ hn h)

theorem groupByDay_days (clock : LocalClock κ) (list : List ForecastItem) :
    ((groupByDay clock list).map Prod.snd).map (dayOf clock)
      = firstSeen (list.map (dayOf clock)) := by
  rw [← groupByDay_keys, DailyForecasts.keys, List.map_map]
  apply List.map_congr_left
  intro e he
  exact (groupByDay_entry clock list e.1 e.2 he).1

theorem mem_displayForecast (clock : LocalClock κ) (list : List ForecastItem)
    (r : ForecastItem) (h : r ∈ displayForecast clock list) :
    IsRepresentative clock list r := by
  have h2 : r ∈ (groupByDay clock list).map Prod.snd := List.mem_of_mem_take h
  obtain ⟨e, he, rfl⟩ := List.mem_map.1 h2
  exact (groupByDay_entry clock list e.1 e.2 he).2

theorem displayForecast_days (clock : LocalClock κ) (list : List ForecastItem) :
    (displayForecast clock list).map (dayOf clock)
      = (firstSeen (list.map (dayOf clock))).take 5 := by
  rw [displayForecast, List.map_take, groupByDay_days]

theorem foldl_selectStep_fresh (clock : LocalClock κ) (rest : List ForecastItem) :
    ∀ d : DailyForecasts κ, (∀ p ∈ rest, dayOf clock p ∉ d.keys) →
      (rest.map (dayOf clock)).Nodup →
      rest.foldl (selectStep clock) d = d ++ rest.map (fun p => (dayOf clock p, p)) := by
  induction rest with
  | nil => intro d _ _; simp
  | cons p rest ih =>
    intro d hfresh hnodup
    have hp : clock.dateKey p.dt ∉ d.keys := hfresh p (List.mem_cons_self _ _)
    have hstep : selectStep clock d p = d ++ [(dayOf clock p, p)] := by
      simp only [selectStep, (get_eq_none_iff _ _).2 hp]
      exact set_of_not_mem _ _ _ hp
    simp only [List.map_cons, List.nodup_cons] at hnodup
    rw [List.foldl_cons, hstep, ih _ _ hnodup.2]
    · simp
    · intro q hq hmem
      simp only [DailyForecasts.keys, List.map_append, List.map_cons, List.map_nil,
        List.mem_append, List.mem_singleton] at hmem
      rcases hmem with hmem | hmem
      · exact hfresh q (List.mem_cons_of_mem _ hq) hmem
      · exact hnodup.1 (hmem ▸ List.mem_map_of_mem (dayOf clock) hq)

end DailyForecasts

/-! ## Daily forecast selection: the claims -/

section Forecast

variable {κ : Type} [DecidableEq κ]

/-- C2: `displayForecast` shows at most 5 representatives, each of a calendar day that
occurs in the input, no two of the same calendar day; an empty input gives no
representative. -/
theorem displayForecast_bounds (clock : LocalClock κ) (list : List ForecastItem) :
    (displayForecast clock list).length ≤ 5 ∧
    (∀ r ∈ displayForecast clock list, dayOf clock r ∈ list.map (dayOf clock)) ∧
    ((displayForecast clock list).map (dayOf clock)).Nodup ∧
    displayForecast clock [] = [] := by
  refine ⟨?_, ?_, ?_, rfl⟩
  · rw [displayForecast, List.length_take]
    exact Nat.min_le_left _ _
  · intro r hr
    exact List.mem_map_of_mem _ (isRepresentative_mem clock list r (mem_displayForecast clock list r hr))
  · rw [displayForecast_days]
    exact (firstSeen_nodup _).sublist (List.take_sublist _ _)

/-- C3: a representative shown by `displayForecast` is a point of the input that
minimises `abs(hour - 12)` over the points of its calendar day, and it is the first
such point: every point of that day before it is strictly farther from noon, no point
of that day after it is closer. -/
theorem displayForecast_closest_to_noon (clock : LocalClock κ) (list : List ForecastItem)
    (r : ForecastItem) (h : r ∈ displayForecast clock list) :
    (∀ p ∈ list, dayOf clock p = dayOf clock r →
      noonDistance clock r ≤ noonDistance clock p) ∧
    ∃ before after, list = before ++ r :: after ∧
      (∀ p ∈ before, dayOf clock p = dayOf clock r →
        noonDistance clock r < noonDistance clock p) ∧
      (∀ p ∈ after, dayOf clock p = dayOf clock r →
        noonDistance clock r ≤ noonDistance clock p) :=
  ⟨isRepresentative_le clock list r (mem_displayForecast clock list r h),
    mem_displayForecast clock list r h⟩

/-- C4: the calendar days of the representatives shown by `displayForecast` are the
first 5 distinct calendar days of the input, in the order of their first appearance,
and every entry shown is the representative of its day. -/
theorem displayForecast_first_days (clock : LocalClock κ) (list : List ForecastItem) :
    (displayForecast clock list).map (dayOf clock)
        = (firstSeen (list.map (dayOf clock))).take 5 ∧
      ∀ r ∈ displayForecast clock list, IsRepresentative clock list r :=
  ⟨displayForecast_days clock list, mem_displayForecast clock list⟩

/-- C5 (amended): when every calendar day has exactly one point, `displayForecast`
shows the first 5 points of the input unchanged, whatever their hours. -/
theorem displayForecast_one_point_per_day (clock : LocalClock κ) (list : List ForecastItem)
    (h : (list.map (dayOf clock)).Nodup) :
    displayForecast clock list = list.take 5 := by
  have hfold := foldl_selectStep_fresh clock list [] (by simp [DailyForecasts.keys]) h
  rw [displayForecast, groupByDay, hfold]
  simp [List.map_map, Function.comp_def]

end Forecast

/-! ## Daily forecast selection: worked inputs -/

/-- Hours 9, 12 and 15 of one day: the 12:00 point is shown. -/
theorem displayForecast_threeHours :
    displayForecast utcClock threeHours = [pointAt 3 12 14] := by
  decide

/-- Hours 10 and 14 of one day tie: the 10:00 point, met first, is shown. -/
theorem displayForecast_tiedHours :
    displayForecast utcClock tiedHours = [pointAt 3 10 11] := by
  decide

/-- Witness of C3 on the hours 9, 12 and 15. -/
theorem displayForecast_closest_to_noon_witness :
    pointAt 3 12 14 ∈ displayForecast utcClock threeHours ∧
    (∀ p ∈ threeHours, dayOf utcClock p = dayOf utcClock (pointAt 3 12 14) →
      noonDistance utcClock (pointAt 3 12 14) ≤ noonDistance utcClock p) ∧
    ∃ before after, threeHours = before ++ pointAt 3 12 14 :: after ∧
      (∀ p ∈ before, dayOf utcClock p = dayOf utcClock (pointAt 3 12 14) →
        noonDistance utcClock (pointAt 3 12 14) < noonDistance utcClock p) ∧
      (∀ p ∈ after, dayOf utcClock p = dayOf utcClock (pointAt 3 12 14) →
        noonDistance utcClock (pointAt 3 12 14) ≤ noonDistance utcClock p) :=
  ⟨by decide, displayForecast_closest_to_noon utcClock threeHours (pointAt 3 12 14) (by decide)⟩

/-- Counterexample to C5: six days with one point each, and the point of the sixth day
is not shown. -/
theorem displayForecast_sixth_day_dropped :
    (sixDays.map (dayOf utcClock)).Nodup ∧ pointAt 6 9 15 ∈ sixDays ∧
      pointAt 6 9 15 ∉ displayForecast utcClock sixDays := by
  decide

/-- Witness of C5 (amended) on six days with one point each. -/
theorem displayForecast_one_point_per_day_witness :
    (sixDays.map (dayOf utcClock)).Nodup ∧
      displayForecast utcClock sixDays = sixDays.take 5 :=
  ⟨by decide, displayForecast_one_point_per_day utcClock sixDays (by decide)⟩

/-! ## Weather alerts: the claims -/

theorem matchedEntry_eq (description : String) :
    matchedEntry description =
      if someIncluded description ["tornado", "hurricane", "blizzard"] then
        some ("extreme", ["tornado", "hurricane", "blizzard"])
      else if someIncluded description ["thunderstorm", "heavy rain", "snow"] then
        some ("severe", ["thunderstorm", "heavy rain", "snow"])
      else if someIncluded description ["light rain", "cloudy", "fog"] then
        some ("moderate", ["light rain", "cloudy", "fog"])
      else none := by
  simp only [matchedEntry, WEATHER_ALERTS, List.find?]
  cases someIncluded description ["tornado", "hurricane", "blizzard"] <;>
    cases someIncluded description ["thunderstorm", "heavy rain", "snow"] <;>
    cases someIncluded description ["light rain", "cloudy", "fog"] <;> rfl

theorem any_occursIgnoringCase_extreme (description : String) :
    ["tornado", "hurricane", "blizzard"].any (occursIgnoringCase description)
      = someIncluded (toLowerCase description) ["tornado", "hurricane", "blizzard"] := rfl

theorem any_occursIgnoringCase_severe (description : String) :
    ["thunderstorm", "heavy rain", "snow"].any (occursIgnoringCase description)
      = someIncluded (toLowerCase description) ["thunderstorm", "heavy rain", "snow"] := rfl

theorem any_occursIgnoringCase_moderate (description : String) :
    ["light rain", "cloudy", "fog"].any (occursIgnoringCase description)
      = someIncluded (toLowerCase description) ["light rain", "cloudy", "fog"] := rfl

theorem keywordAlerts_eq (description : String) :
    keywordAlerts description =
      match firstMatchingBand description with
      | .extreme => [extremeWeatherAlert description]
      | .severe => [severeWeatherNotice description]
      | .moderate => []
      | .normal => [] := by
  simp only [keywordAlerts, firstMatchingBand, any_occursIgnoringCase_extreme,
    any_occursIgnoringCase_severe, any_occursIgnoringCase_moderate, matchedEntry_eq]
  split_ifs <;> simp [entryAlerts]

theorem matchedSeverity_eq (description : String) :
    matchedSeverity description = (firstMatchingBand description).key := by
  simp only [matchedSeverity, firstMatchingBand, any_occursIgnoringCase_extreme,
    any_occursIgnoringCase_severe, any_occursIgnoringCase_moderate, matchedEntry_eq]
  split_ifs <;> simp [SeverityBand.key]

theorem keywordAlerts_length_le (description : String) :
    (keywordAlerts description).length ≤ 1 := by
  rw [keywordAlerts_eq]
  cases firstMatchingBand description <;> simp

theorem checkWeatherAlerts_eq (o : WeatherData) :
    checkWeatherAlerts o = temperatureAlerts o.temp ++ keywordAlerts o.description := rfl

theorem temperatureAlerts_mild (temp : ℚ) (hlo : -10 ≤ temp) (hhi : temp ≤ 35) :
    temperatureAlerts temp = [] := by
  simp [temperatureAlerts, not_lt.2 hlo, not_lt.2 hhi]

theorem temperatureAlerts_hot (temp : ℚ) (h : temp > 35) :
    temperatureAlerts temp = [heatWarning] := by
  simp [temperatureAlerts, h]

theorem temperatureAlerts_cold (temp : ℚ) (h : temp < -10) :
    temperatureAlerts temp = [coldWarning] := by
  have h2 : ¬ temp > 35 := by
    intro h3
    have : (35 : ℚ) < -10 := lt_trans h3 h
    norm_num at this
  simp [temperatureAlerts, h, h2]

/-- C6: above 35 °C `checkWeatherAlerts` raises the `Extreme Heat Warning` alert and
below -10 °C the `Extreme Cold Warning` alert, whatever the description is. -/
theorem checkWeatherAlerts_extreme_temperature (o : WeatherData) :
    (o.temp > 35 → heatWarning ∈ checkWeatherAlerts o) ∧
    (o.temp < -10 → coldWarning ∈ checkWeatherAlerts o) := by
  constructor
  · intro h
    rw [checkWeatherAlerts_eq, temperatureAlerts_hot _ h]
    simp
  · intro h
    rw [checkWeatherAlerts_eq, temperatureAlerts_cold _ h]
    simp

/-- Witness of C6 at 40 °C with a tornado and at -20 °C under a clear sky. -/
theorem checkWeatherAlerts_extreme_temperature_witness :
    heatWarning ∈ checkWeatherAlerts hotTornado ∧ coldWarning ∈ checkWeatherAlerts frost :=
  ⟨(checkWeatherAlerts_extreme_temperature hotTornado).1 (by decide),
    (checkWeatherAlerts_extreme_temperature frost).2 (by decide)⟩

/-- Counterexample to C7: at 40 °C with the description `tornado` two alerts are raised,
the heat warning and the keyword alert. -/
theorem checkWeatherAlerts_hotTornado :
    hotTornado.temp > 35 ∧
    checkWeatherAlerts hotTornado = [heatWarning, extremeWeatherAlert "tornado"] ∧
    ¬ (checkWeatherAlerts hotTornado).length ≤ 1 := by
  decide

/-- C7 (amended): `checkWeatherAlerts` raises at most two alerts, at most one for the
temperature followed by at most one for the description keywords.  The keyword loop
runs at every temperature: above 35 °C the result is the heat warning followed by the
keyword alerts, below -10 °C the cold warning followed by them, and between the two
the keyword alerts alone, at most one. -/
theorem checkWeatherAlerts_temperature_then_keywords (o : WeatherData) :
    (checkWeatherAlerts o).length ≤ 2 ∧
    (keywordAlerts o.description).length ≤ 1 ∧
    (o.temp > 35 → checkWeatherAlerts o = heatWarning :: keywordAlerts o.description) ∧
    (o.temp < -10 → checkWeatherAlerts o = coldWarning :: keywordAlerts o.description) ∧
    (-10 ≤ o.temp → o.temp ≤ 35 →
      checkWeatherAlerts o = keywordAlerts o.description ∧
        (checkWeatherAlerts o).length ≤ 1) := by
  have hk := keywordAlerts_length_le o.description
  refine ⟨?_, hk, ?_, ?_, ?_⟩
  · rw [checkWeatherAlerts_eq, List.length_append]
    have ht : (temperatureAlerts o.temp).length ≤ 1 := by
      unfold temperatureAlerts
      split_ifs <;> simp
    omega
  · intro h
    rw [checkWeatherAlerts_eq, temperatureAlerts_hot _ h]
    rfl
  · intro h
    rw [checkWeatherAlerts_eq, temperatureAlerts_cold _ h]
    rfl
  · intro hlo hhi
    have e : checkWeatherAlerts o = keywordAlerts o.description := by
      rw [checkWeatherAlerts_eq, temperatureAlerts_mild _ hlo hhi]
      rfl
    exact ⟨e, e ▸ hk⟩

/-- Witness of C7 (amended) at 40 °C with a tornado, at -20 °C and at 20 °C. -/
theorem checkWeatherAlerts_temperature_then_keywords_witness :
    checkWeatherAlerts hotTornado = heatWarning :: keywordAlerts hotTornado.description ∧
    checkWeatherAlerts frost = coldWarning :: keywordAlerts frost.description ∧
    checkWeatherAlerts thunder = keywordAlerts thunder.description ∧
    (checkWeatherAlerts thunder).length ≤ 1 :=
  ⟨(checkWeatherAlerts_temperature_then_keywords hotTornado).2.2.1 (by decide),
    (checkWeatherAlerts_temperature_then_keywords frost).2.2.2.1 (by decide),
    (checkWeatherAlerts_temperature_then_keywords thunder).2.2.2.2 (by decide) (by decide)⟩

/-- C8: between -10 °C and 35 °C the keyword loop of `checkWeatherAlerts` breaks on the
first of Extreme, Severe, Moderate that has a keyword occurring in the description,
letter case ignored, and the alerts raised are a function of that band, hence of the
description alone: an Extreme keyword gives the Extreme alert only, even if a Severe
keyword occurs too, and a description without any keyword gives no alert. -/
theorem checkWeatherAlerts_band (o : WeatherData) (hlo : -10 ≤ o.temp) (hhi : o.temp ≤ 35) :
    matchedSeverity o.description = (firstMatchingBand o.description).key ∧
    checkWeatherAlerts o =
      (match firstMatchingBand o.description with
        | .extreme => [extremeWeatherAlert o.description]
        | .severe => [severeWeatherNotice o.description]
        | .moderate => []
        | .normal => []) ∧
    (["tornado", "hurricane", "blizzard"].any (occursIgnoringCase o.description) = true →
      checkWeatherAlerts o = [extremeWeatherAlert o.description]) ∧
    (firstMatchingBand o.description = .normal → checkWeatherAlerts o = []) ∧
    (∀ o2 : WeatherData, -10 ≤ o2.temp → o2.temp ≤ 35 → o2.description = o.description →
      checkWeatherAlerts o2 = checkWeatherAlerts o) := by
  have e : ∀ o2 : WeatherData, -10 ≤ o2.temp → o2.temp ≤ 35 →
      checkWeatherAlerts o2 = keywordAlerts o2.description := by
    intro o2 h1 h2
    rw [checkWeatherAlerts_eq, temperatureAlerts_mild _ h1 h2]
    rfl
  refine ⟨matchedSeverity_eq _, ?_, ?_, ?_, ?_⟩
  · rw [e o hlo hhi, keywordAlerts_eq]
  · intro h
    rw [e o hlo hhi, keywordAlerts_eq]
    simp [firstMatchingBand, h]
  · intro h
    rw [e o hlo hhi, keywordAlerts_eq, h]
  · intro o2 h1 h2 hd
    rw [e o hlo hhi, e o2 h1 h2, hd]

/-- Witness of C8 at -5 °C with the description `Blizzard, heavy snow`, which has an
Extreme and a Severe keyword. -/
theorem checkWeatherAlerts_band_witness :
    (-10 ≤ blizzardSnow.temp ∧ blizzardSnow.temp ≤ 35) ∧
    matchedSeverity blizzardSnow.description = some "extreme" ∧
    ["thunderstorm", "heavy rain", "snow"].any (occursIgnoringCase blizzardSnow.description)
      = true ∧
    checkWeatherAlerts blizzardSnow = [extremeWeatherAlert "Blizzard, heavy snow"] :=
  ⟨by decide,
    (checkWeatherAlerts_band blizzardSnow (by decide) (by decide)).1.trans (by decide),
    by decide,
    (checkWeatherAlerts_band blizzardSnow (by decide) (by decide)).2.2.1 (by decide)⟩

/-- Counterexample to C9: at 20 °C the description `light rain` has the Moderate keyword
`light rain` and no Extreme or Severe keyword, and no alert is raised. -/
theorem checkWeatherAlerts_lightRain :
    (-10 ≤ lightRain.temp ∧ lightRain.temp ≤ 35) ∧
    occursIgnoringCase lightRain.description "light rain" = true ∧
    firstMatchingBand lightRain.description = .moderate ∧
    checkWeatherAlerts lightRain = [] := by
  decide

/-- C9 (amended): between -10 °C and 35 °C, a description whose first matching set is
Extreme or Severe gets exactly one alert, the one of that set, and a description whose
first matching set is Moderate gets none. -/
theorem checkWeatherAlerts_one_for_extreme_or_severe (o : WeatherData)
    (hlo : -10 ≤ o.temp) (hhi : o.temp ≤ 35) :
    (firstMatchingBand o.description = .extreme →
      checkWeatherAlerts o = [extremeWeatherAlert o.description]) ∧
    (firstMatchingBand o.description = .severe →
      checkWeatherAlerts o = [severeWeatherNotice o.description]) ∧
    (firstMatchingBand o.description = .moderate → checkWeatherAlerts o = []) := by
  have e : checkWeatherAlerts o = keywordAlerts o.description := by
    rw [checkWeatherAlerts_eq, temperatureAlerts_mild _ hlo hhi]
    rfl
  rw [e, keywordAlerts_eq]
  refine ⟨?_, ?_, ?_⟩ <;> intro h <;> rw [h]

/-- Witness of C9 (amended) at 20 °C with a thunderstorm and with light rain. -/
theorem checkWeatherAlerts_one_for_extreme_or_severe_witness :
    checkWeatherAlerts thunder = [severeWeatherNotice "Thunderstorm with heavy rain"] ∧
    checkWeatherAlerts lightRain = [] :=
  ⟨(checkWeatherAlerts_one_for_extreme_or_severe thunder (by decide) (by decide)).2.1
      (by decide),
    (checkWeatherAlerts_one_for_extreme_or_severe lightRain (by decide) (by decide)).2.2
      (by decide)⟩

/-! ## Activity suggestions: the claims -/

/-- C1: at 25 °C with snow and a wind of 10 m/s six objects are pushed before
`Cooking Workshop`, so `slice(0, 6)` cuts the fallback off: it is pushed, and it is
not in the list returned. -/
theorem generateActivitySuggestions_warmSnow :
    generateActivitySuggestions warmSnow =
      [beachDay 25, outdoorBBQ 25, hikingNatureWalk 25, cyclingAdventure 10,
        winterSports 25, kiteFlying 10] ∧
    cookingWorkshop ∈ activityCandidates warmSnow ∧
    cookingWorkshop ∉ generateActivitySuggestions warmSnow ∧
    "Cooking Workshop" ∉ titles (generateActivitySuggestions warmSnow) :=
  ⟨by rfl, by decide, by decide, by decide⟩

theorem activityCandidates_length_pos (data : WeatherData) :
    1 ≤ (activityCandidates data).length := by
  simp only [activityCandidates, List.length_append, List.length_singleton]
  omega

/-- C10: at 30 °C with the condition `Clear` the list returned by
`generateActivitySuggestions` contains `Beach Day` and the fallback `Cooking Workshop`,
whatever the wind speed, humidity and visibility are; and for every observation the
list has at least 1 and at most 6 entries. -/
theorem generateActivitySuggestions_clear_30 (data : WeatherData) :
    (data.temp = 30 → data.main = "Clear" →
      beachDay 30 ∈ generateActivitySuggestions data ∧
      cookingWorkshop ∈ generateActivitySuggestions data ∧
      "Beach Day" ∈ titles (generateActivitySuggestions data) ∧
      "Cooking Workshop" ∈ titles (generateActivitySuggestions data)) ∧
    1 ≤ (generateActivitySuggestions data).length ∧
    (generateActivitySuggestions data).length ≤ 6 := by
  refine ⟨?_, ?_, ?_⟩
  · intro ht hm
    have hw : toLowerCase data.main = "clear" := by rw [hm]; decide
    have hrain : includes "clear" "rain" = false := by decide
    have hsnow : includes "clear" "snow" = false := by decide
    have h1 : ¬ ((30 : ℚ) ≤ 25) := by norm_num
    have h2 : ¬ ((30 : ℚ) ≤ 20) := by norm_num
    have h3 : (25 : ℚ) ≤ 30 := by norm_num
    by_cases hk : data.windSpeed > 5 ∧ data.windSpeed < 15
    · have e : generateActivitySuggestions data =
          [beachDay 30, outdoorBBQ 30, kiteFlying data.windSpeed, cookingWorkshop] := by
        simp [generateActivitySuggestions, activityCandidates, ht, hw, hrain, hsnow, h1, h2,
          h3, hk]
      rw [e]
      simp [titles, beachDay, cookingWorkshop]
    · have e : generateActivitySuggestions data =
          [beachDay 30, outdoorBBQ 30, cookingWorkshop] := by
        simp only [generateActivitySuggestions, activityCandidates, ht, hw, hrain, hsnow,
          if_neg hk]
        simp [h1, h2, h3]
      rw [e]
      simp [titles, beachDay, cookingWorkshop]
  · rw [generateActivitySuggestions, List.length_take]
    have := activityCandidates_length_pos data
    omega
  · rw [generateActivitySuggestions, List.length_take]
    omega

/-- Witness of C10 at 30 °C under a clear sky. -/
theorem generateActivitySuggestions_clear_30_witness :
    beachDay 30 ∈ generateActivitySuggestions clearDay ∧
    cookingWorkshop ∈ generateActivitySuggestions clearDay ∧
    "Beach Day" ∈ titles (generateActivitySuggestions clearDay) ∧
    "Cooking Workshop" ∈ titles (generateActivitySuggestions clearDay) :=
  (generateActivitySuggestions_clear_30 clearDay).1 (by decide) (by decide)

theorem flatMap_filter_cons {α β : Type} (p : α → Bool) (f : α → List β) (a : α)
    (l : List α) :
    ((a :: l).filter p).flatMap f = (if p a then f a else []) ++ (l.filter p).flatMap f := by
  cases h : p a <;> simp [List.filter_cons, h]

theorem activityCandidates_eq_rules (data : WeatherData) :
    activityCandidates data = satisfiedRecommendations data := by
  simp only [activityCandidates, satisfiedRecommendations, activityRules, flatMap_filter_cons,
    List.filter_nil, List.flatMap_nil, List.append_nil, decide_eq_true_eq, if_true, ge_iff_le,
    gt_iff_lt, List.append_assoc]

/-- C11: `generateActivitySuggestions` evaluates every rule of the activity table and
returns the first 6 of the recommendations of the satisfied rules, in declaration
order. -/
theorem generateActivitySuggestions_eq_rules (data : WeatherData) :
    generateActivitySuggestions data = (satisfiedRecommendations data).take 6 := by
  rw [generateActivitySuggestions, activityCandidates_eq_rules]

/-! ## Clothing recommendations: the claims -/

theorem baseProfile_hot (temp : ℚ) (h : 30 ≤ temp) : baseProfile temp = hotProfile := by
  simp [baseProfile, h]

theorem baseProfile_warm (temp : ℚ) (h1 : 20 ≤ temp) (h2 : temp < 30) :
    baseProfile temp = warmProfile := by
  simp [baseProfile, h1, not_le.2 h2]

theorem baseProfile_cool (temp : ℚ) (h1 : 10 ≤ temp) (h2 : temp < 20) :
    baseProfile temp = coolProfile := by
  have h3 : ¬ 30 ≤ temp := fun h => by linarith
  simp [baseProfile, h1, not_le.2 h2, h3]

theorem baseProfile_cold (temp : ℚ) (h : temp < 10) : baseProfile temp = coldProfile := by
  have h2 : ¬ 30 ≤ temp := fun h => by linarith
  have h3 : ¬ 20 ≤ temp := fun h => by linarith
  simp [baseProfile, not_le.2 h, h2, h3]

theorem baseProfile_cases (temp : ℚ) :
    (30 ≤ temp ∧ baseProfile temp = hotProfile) ∨
    (20 ≤ temp ∧ temp < 30 ∧ baseProfile temp = warmProfile) ∨
    (10 ≤ temp ∧ temp < 20 ∧ baseProfile temp = coolProfile) ∨
    (temp < 10 ∧ baseProfile temp = coldProfile) := by
  by_cases a : 30 ≤ temp
  · exact Or.inl ⟨a, baseProfile_hot temp a⟩
  · by_cases b : 20 ≤ temp
    · exact Or.inr (Or.inl ⟨b, not_le.1 a, baseProfile_warm temp b (not_le.1 a)⟩)
    · by_cases c : 10 ≤ temp
      · exact Or.inr (Or.inr (Or.inl ⟨c, not_le.1 b, baseProfile_cool temp c (not_le.1 b)⟩))
      · exact Or.inr (Or.inr (Or.inr ⟨not_le.1 c, baseProfile_cold temp (not_le.1 c)⟩))

/-- C12: `generateClothingRecommendations` selects one base profile by exclusive
temperature bands, hot iff `temp >= 30`, warm iff `20 <= temp < 30`, cool iff
`10 <= temp < 20`, cold iff `temp < 10`; the character, description and categories
returned are those of that profile, the same for every condition and wind speed. -/
theorem generateClothingRecommendations_band (data : WeatherData) :
    (baseProfile data.temp = hotProfile ↔ 30 ≤ data.temp) ∧
    (baseProfile data.temp = warmProfile ↔ 20 ≤ data.temp ∧ data.temp < 30) ∧
    (baseProfile data.temp = coolProfile ↔ 10 ≤ data.temp ∧ data.temp < 20) ∧
    (baseProfile data.temp = coldProfile ↔ data.temp < 10) ∧
    (generateClothingRecommendations data).character = (baseProfile data.temp).character ∧
    (generateClothingRecommendations data).description
      = (baseProfile data.temp).description ∧
    (generateClothingRecommendations data).categories = (baseProfile data.temp).categories ∧
    ∀ other : WeatherData, other.temp = data.temp →
      (generateClothingRecommendations other).character
        = (generateClothingRecommendations data).character ∧
      (generateClothingRecommendations other).description
        = (generateClothingRecommendations data).description ∧
      (generateClothingRecommendations other).categories
        = (generateClothingRecommendations data).categories := by
  have hw : hotProfile ≠ warmProfile := by decide
  have hc : hotProfile ≠ coolProfile := by decide
  have hd : hotProfile ≠ coldProfile := by decide
  have wc : warmProfile ≠ coolProfile := by decide
  have wd : warmProfile ≠ coldProfile := by decide
  have cd : coolProfile ≠ coldProfile := by decide
  refine ⟨?_, ?_, ?_, ?_, rfl, rfl, rfl, ?_⟩
  · rcases baseProfile_cases data.temp with ⟨a, e⟩ | ⟨a, b, e⟩ | ⟨a, b, e⟩ | ⟨a, e⟩ <;> rw [e]
    · exact ⟨fun _ => a, fun _ => rfl⟩
    · exact ⟨fun h => absurd h.symm hw, fun h => by linarith⟩
    · exact ⟨fun h => absurd h.symm hc, fun h => by linarith⟩
    · exact ⟨fun h => absurd h.symm hd, fun h => by linarith⟩
  · rcases baseProfile_cases data.temp with ⟨a, e⟩ | ⟨a, b, e⟩ | ⟨a, b, e⟩ | ⟨a, e⟩ <;> rw [e]
    · exact ⟨fun h => absurd h hw, fun h => by linarith [h.2]⟩
    · exact ⟨fun _ => ⟨a, b⟩, fun _ => rfl⟩
    · exact ⟨fun h => absurd h.symm wc, fun h => by linarith [h.1]⟩
    · exact ⟨fun h => absurd h.symm wd, fun h => by linarith [h.1]⟩
  · rcases baseProfile_cases data.temp with ⟨a, e⟩ | ⟨a, b, e⟩ | ⟨a, b, e⟩ | ⟨a, e⟩ <;> rw [e]
    · exact ⟨fun h => absurd h hc, fun h => by linarith [h.2]⟩
    · exact ⟨fun h => absurd h wc, fun h => by linarith [h.2]⟩
    · exact ⟨fun _ => ⟨a, b⟩, fun _ => rfl⟩
    · exact ⟨fun h => absurd h.symm cd, fun h => by linarith [h.1]⟩
  · rcases baseProfile_cases data.temp with ⟨a, e⟩ | ⟨a, b, e⟩ | ⟨a, b, e⟩ | ⟨a, e⟩ <;> rw [e]
    · exact ⟨fun h => absurd h hd, fun h => by linarith⟩
    · exact ⟨fun h => absurd h wd, fun h => by linarith⟩
    · exact ⟨fun h => absurd h cd, fun h => by linarith⟩
    · exact ⟨fun _ => a, fun _ => rfl⟩
  · intro other h
    simp [generateClothingRecommendations, h]

theorem accessoryCandidates_eq (data : WeatherData) :
    accessoryCandidates data = declaredAccessories data := by
  simp only [accessoryCandidates, declaredAccessories]
  split_ifs <;> simp

/-- C13: when the condition contains `rain`, the first accessory returned by
`generateClothingRecommendations` is the umbrella put first for rain protection; and
for every observation the accessory list has at most 6 entries. -/
theorem generateClothingRecommendations_umbrella_first (data : WeatherData) :
    (includes (toLowerCase data.main) "rain" = true →
      (generateClothingRecommendations data).accessories.head? = some rainUmbrella) ∧
    (generateClothingRecommendations data).accessories.length ≤ 6 := by
  constructor
  · intro h
    simp only [generateClothingRecommendations, accessoryCandidates_eq, declaredAccessories, h,
      if_true]
    simp
  · simp only [generateClothingRecommendations, List.length_take]
    exact Nat.min_le_left _ _

/-- Witness of C13 at 5 °C with rain: the base profile is the cold one and the umbrella
for rain comes first. -/
theorem generateClothingRecommendations_umbrella_first_witness :
    baseProfile coldRain.temp = coldProfile ∧
    (generateClothingRecommendations coldRain).accessories.head? = some rainUmbrella ∧
    (generateClothingRecommendations coldRain).accessories.length ≤ 6 :=
  ⟨by decide, (generateClothingRecommendations_umbrella_first coldRain).1 (by decide),
    (generateClothingRecommendations_umbrella_first coldRain).2⟩

/-- C14: the accessory list returned by `generateClothingRecommendations` is the first 6
of: the umbrella if the condition contains `rain`, the base accessories of the selected
band in declared order, the waterproof shoes if the condition contains `rain`, the
windproof jacket if the wind speed is above 8. -/
theorem generateClothingRecommendations_accessories (data : WeatherData) :
    (generateClothingRecommendations data).accessories
      = ((if includes (toLowerCase data.main) "rain" then [rainUmbrella] else [])
          ++ (baseProfile data.temp).accessories
          ++ (if includes (toLowerCase data.main) "rain" then [waterproofShoes] else [])
          ++ (if data.windSpeed > 8 then [windproofJacket] else [])).take 6 := by
  simp only [generateClothingRecommendations, accessoryCandidates_eq, declaredAccessories]

/-- C15: on a record without wind data both generators stop with a `TypeError` at
`data.wind.speed`, for the sample record and for every such record, whereas the guarded
read of `updateProgressBars` gives 0 and the generators return a result for the wind
speed 0. -/
theorem generators_fail_without_wind :
    generateActivitySuggestionsOfRecord noWindRecord = .error .typeError ∧
    generateClothingRecommendationsOfRecord noWindRecord = .error .typeError ∧
    (∀ record : WeatherRecord, record.wind = none →
      generateActivitySuggestionsOfRecord record = .error .typeError ∧
      generateClothingRecommendationsOfRecord record = .error .typeError) ∧
    guardedWindSpeed noWindRecord.wind = 0 ∧
    generateActivitySuggestionsOfRecord { noWindRecord with wind := some 0 }
      = .ok (generateActivitySuggestions (noWindRecord.withWind 0)) ∧
    generateClothingRecommendationsOfRecord { noWindRecord with wind := some 0 }
      = .ok (generateClothingRecommendations (noWindRecord.withWind 0)) := by
  refine ⟨rfl, rfl, ?_, rfl, rfl, rfl⟩
  intro record h
  simp [generateActivitySuggestionsOfRecord, generateClothingRecommendationsOfRecord, h,
    readWindSpeed]

/-! ## Chatbot replies: lemmas -/

theorem append_eq_empty (a b : String) : a ++ b = "" ↔ a = "" ∧ b = "" := by
  simp only [String.ext_iff, String.data_append]
  exact List.append_eq_nil

theorem wellFormed_next (rand : RandomSource) (h : rand.WellFormed) : rand.next.WellFormed :=
  fun n => h (n + 1)

theorem indexArray_floor (xs : List String) (r : ℚ) (h0 : 0 ≤ r) (h1 : r < 1)
    (hx : xs ≠ []) :
    ∃ t ∈ xs, indexArray xs (Rat.floor (r * xs.length)) = some t := by
  have hpos : (0 : ℚ) < xs.length := by
    have : 0 < xs.length := List.length_pos.2 hx
    exact_mod_cast this
  have hlo : (0 : ℤ) ≤ Rat.floor (r * xs.length) :=
    Rat.le_floor.2 (by simpa using mul_nonneg h0 hpos.le)
  have hhi : Rat.floor (r * xs.length) < (xs.length : ℤ) := by
    by_contra hc
    have h2 : ((xs.length : ℤ) : ℚ) ≤ r * xs.length := Rat.le_floor.1 (not_lt.1 hc)
    have h3 : r * xs.length < 1 * xs.length := mul_lt_mul_of_pos_right h1 hpos
    simp only [Int.cast_natCast, one_mul] at h2 h3
    exact absurd h2 (not_le.2 h3)
  have hlt : (Rat.floor (r * xs.length)).toNat < xs.length := by omega
  refine ⟨xs[(Rat.floor (r * xs.length)).toNat], List.getElem_mem _, ?_⟩
  simp only [indexArray, not_lt.2 hlo, if_false]
  exact List.getElem?_eq_getElem hlt

theorem getRandomResponse_mem (category : String) (responses : List String)
    (rand : RandomSource) (h : rand.WellFormed)
    (hc : chatbotResponsesAt category = some responses) (hx : responses ≠ []) :
    ∃ t ∈ responses, getRandomResponse category rand = (some t, rand.next) := by
  obtain ⟨t, ht, e⟩ := indexArray_floor responses (rand 0) (h 0).1 (h 0).2 hx
  exact ⟨t, ht, by simp only [getRandomResponse, hc, e]⟩

theorem addPersonalityToResponse_cases (s : String) (rand : RandomSource)
    (h : rand.WellFormed) :
    (rand 0 < 3 / 10 ∧
      ∃ p ∈ personalityResponses, (addPersonalityToResponse (some s) rand).1
        = some (p ++ " " ++ s)) ∨
    (¬ rand 0 < 3 / 10 ∧ (addPersonalityToResponse (some s) rand).1 = some s) := by
  by_cases hr : rand 0 < 3 / 10
  · left
    obtain ⟨p, hp, e⟩ := indexArray_floor personalityResponses (rand 1) (h 1).1 (h 1).2
      (by decide)
    exact ⟨hr, p, hp, by simp only [addPersonalityToResponse, hr, if_true, e, jsToString]⟩
  · right
    exact ⟨hr, by simp only [addPersonalityToResponse, hr, if_false]⟩

theorem personalityResponses_ne_empty : ∀ p ∈ personalityResponses, p ≠ "" := by
  decide

theorem chatbotResponsesAt_known (category : String) (h : category ∈ responseCategories) :
    ∃ responses, chatbotResponsesAt category = some responses ∧ responses ≠ [] ∧
      ∀ t ∈ responses, t ≠ "" := by
  simp only [responseCategories, List.mem_cons, List.mem_singleton, List.not_mem_nil,
    or_false] at h
  rcases h with h | h | h | h | h | h | h | h | h <;> subst h
  · exact ⟨greetingResponses, rfl, by decide, by decide⟩
  · exact ⟨weatherResponses, rfl, by decide, by decide⟩
  · exact ⟨clothingResponses, rfl, by decide, by decide⟩
  · exact ⟨activityResponses, rfl, by decide, by decide⟩
  · exact ⟨airQualityResponses, rfl, by decide, by decide⟩
  · exact ⟨thanksResponses, rfl, by decide, by decide⟩
  · exact ⟨unknownResponses, rfl, by decide, by decide⟩
  · exact ⟨forecastResponses, rfl, by decide, by decide⟩
  · exact ⟨helpResponses, rfl, by decide, by decide⟩

theorem getRandomResponse_reply (category : String) (rand : RandomSource)
    (h : rand.WellFormed) (hc : category ∈ responseCategories) :
    ∃ responses, chatbotResponsesAt category = some responses ∧
      ∃ t ∈ responses, getRandomResponse category rand = (some t, rand.next) ∧ t ≠ "" := by
  obtain ⟨responses, e, hne, hall⟩ := chatbotResponsesAt_known category hc
  obtain ⟨t, ht, e2⟩ := getRandomResponse_mem category responses rand h e hne
  exact ⟨responses, e, t, ht, e2, hall t ht⟩

theorem getRandomResponse_isReply (category : String) (rand : RandomSource)
    (h : rand.WellFormed) (hc : category ∈ responseCategories) :
    IsReply (getRandomResponse category rand).1 := by
  obtain ⟨_, _, t, _, e, hne⟩ := getRandomResponse_reply category rand h hc
  exact ⟨t, by rw [e], hne⟩

theorem append_ne_empty (a b : String) (h : a ≠ "") : a ++ b ≠ "" :=
  fun hc => h ((append_eq_empty a b).1 hc).1

theorem addPersonalityToResponse_isReply (value : Option String) (rand : RandomSource)
    (h : rand.WellFormed) (hv : IsReply value) :
    IsReply (addPersonalityToResponse value rand).1 := by
  obtain ⟨s, rfl, hs⟩ := hv
  rcases addPersonalityToResponse_cases s rand h with ⟨_, p, hp, e⟩ | ⟨_, e⟩
  · exact ⟨_, e, append_ne_empty _ _ (append_ne_empty _ _ (personalityResponses_ne_empty p hp))⟩
  · exact ⟨s, e, hs⟩

theorem generateWeatherSpecificResponse_isReply (currentWeatherData : Option WeatherData)
    (userMessage : String) (rand : RandomSource) (h : rand.WellFormed) :
    IsReply (generateWeatherSpecificResponse currentWeatherData userMessage rand).1 := by
  have hw := getRandomResponse_isReply "weather" rand h (by decide)
  cases currentWeatherData with
  | none => exact ⟨searchFirstPrompt, rfl, by decide⟩
  | some data =>
    simp only [generateWeatherSpecificResponse]
    split_ifs
    · exact ⟨_, rfl, append_ne_empty _ _ (append_ne_empty _ _ (by decide))⟩
    · exact ⟨_, rfl, append_ne_empty _ _ (append_ne_empty _ _ (by decide))⟩
    · exact ⟨_, rfl, append_ne_empty _ _ (append_ne_empty _ _ (by decide))⟩
    · exact ⟨_, rfl, append_ne_empty _ _ (append_ne_empty _ _ (by decide))⟩
    · exact ⟨_, rfl, by decide⟩
    · exact ⟨_, rfl, append_ne_empty _ _ (append_ne_empty _ _ (by decide))⟩
    · exact ⟨_, rfl, append_ne_empty _ _ (append_ne_empty _ _ (by decide))⟩
    · exact hw
    · exact hw

theorem mentionsAny_two (m a b : String) :
    mentionsAny m [a, b] = (includes m a || includes m b) := by
  simp [mentionsAny]

theorem mentionsAny_three (m a b c : String) :
    mentionsAny m [a, b, c] = (includes m a || includes m b || includes m c) := by
  simp [mentionsAny, Bool.or_assoc]

theorem mentionsAny_four (m a b c d : String) :
    mentionsAny m [a, b, c, d]
      = (includes m a || includes m b || includes m c || includes m d) := by
  simp [mentionsAny, Bool.or_assoc]

theorem weatherSpecificTrigger_eq (message : String) :
    weatherSpecificTrigger message
      = (mentionsAny message clothingKeywords || mentionsAny message activityKeywords) := by
  simp only [weatherSpecificTrigger, clothingKeywords, activityKeywords, mentionsAny_four]

theorem firstIntent_eq (message : String) :
    firstIntent message =
      if mentionsAny message ["hello", "hi", "hey"] then some "greetings"
      else if mentionsAny message ["weather", "temperature", "forecast"] then some "weather"
      else if mentionsAny message clothingKeywords then some "clothing"
      else if mentionsAny message activityKeywords then some "activities"
      else if mentionsAny message ["air quality", "pollution", "air"] then some "airQuality"
      else if mentionsAny message ["thank", "thanks"] then some "thanks"
      else if mentionsAny message ["forecast", "5 day", "future"] then some "forecast"
      else if mentionsAny message ["help", "what can you do", "assist"] then some "help"
      else none := by
  simp only [firstIntent, intentKeywords, List.find?]
  split_ifs <;> simp_all

theorem keywordDispatch_eq (currentWeatherData : Option WeatherData) (message : String)
    (rand : RandomSource) :
    keywordDispatch currentWeatherData message rand =
      if mentionsAny message ["hello", "hi", "hey"] then (getRandomResponse "greetings" rand).1
      else if mentionsAny message ["weather", "temperature", "forecast"] then
        (getRandomResponse "weather" rand).1
      else if mentionsAny message clothingKeywords then (getRandomResponse "clothing" rand).1
      else if mentionsAny message activityKeywords then
        (getRandomResponse "activities" rand).1
      else if mentionsAny message ["air quality", "pollution", "air"] then
        (getRandomResponse "airQuality" rand).1
      else if mentionsAny message ["thank", "thanks"] then (getRandomResponse "thanks" rand).1
      else if mentionsAny message ["forecast", "5 day", "future"] then
        (getRandomResponse "forecast" rand).1
      else if mentionsAny message ["help", "what can you do", "assist"] then
        (getRandomResponse "help" rand).1
      else
        match currentWeatherData with
        | none =>
          (addPersonalityToResponse (getRandomResponse "unknown" rand).1
            (getRandomResponse "unknown" rand).2).1
        | some data =>
          if mentionsAny message ["hot", "cold", "warm"] then
            some (temperatureReply data.temp (getRandomResponse "clothing" rand).1)
          else if mentionsAny message ["rain", "sunny", "cloudy"] then
            some (conditionReply (toLowerCase data.main) (getRandomResponse "weather" rand).1)
          else
            (addPersonalityToResponse (getRandomResponse "unknown" rand).1
              (getRandomResponse "unknown" rand).2).1 := by
  simp only [keywordDispatch, clothingKeywords, activityKeywords, mentionsAny_two,
    mentionsAny_three, mentionsAny_four]

theorem fallback_isReply (rand : RandomSource) (h : rand.WellFormed) :
    IsReply (addPersonalityToResponse (getRandomResponse "unknown" rand).1
      (getRandomResponse "unknown" rand).2).1 := by
  obtain ⟨_, _, t, _, e, hne⟩ := getRandomResponse_reply "unknown" rand h (by decide)
  rw [e]
  exact addPersonalityToResponse_isReply _ _ (wellFormed_next rand h) ⟨t, rfl, hne⟩

theorem keywordDispatch_isReply (currentWeatherData : Option WeatherData) (message : String)
    (rand : RandomSource) (h : rand.WellFormed) :
    IsReply (keywordDispatch currentWeatherData message rand) := by
  rw [keywordDispatch_eq]
  by_cases h1 : mentionsAny message ["hello", "hi", "hey"] = true
  · rw [if_pos h1]; exact getRandomResponse_isReply "greetings" rand h (by decide)
  rw [if_neg h1]
  by_cases h2 : mentionsAny message ["weather", "temperature", "forecast"] = true
  · rw [if_pos h2]; exact getRandomResponse_isReply "weather" rand h (by decide)
  rw [if_neg h2]
  by_cases h3 : mentionsAny message clothingKeywords = true
  · rw [if_pos h3]; exact getRandomResponse_isReply "clothing" rand h (by decide)
  rw [if_neg h3]
  by_cases h4 : mentionsAny message activityKeywords = true
  · rw [if_pos h4]; exact getRandomResponse_isReply "activities" rand h (by decide)
  rw [if_neg h4]
  by_cases h5 : mentionsAny message ["air quality", "pollution", "air"] = true
  · rw [if_pos h5]; exact getRandomResponse_isReply "airQuality" rand h (by decide)
  rw [if_neg h5]
  by_cases h6 : mentionsAny message ["thank", "thanks"] = true
  · rw [if_pos h6]; exact getRandomResponse_isReply "thanks" rand h (by decide)
  rw [if_neg h6]
  by_cases h7 : mentionsAny message ["forecast", "5 day", "future"] = true
  · rw [if_pos h7]; exact getRandomResponse_isReply "forecast" rand h (by decide)
  rw [if_neg h7]
  by_cases h8 : mentionsAny message ["help", "what can you do", "assist"] = true
  · rw [if_pos h8]; exact getRandomResponse_isReply "help" rand h (by decide)
  rw [if_neg h8]
  cases currentWeatherData with
  | none => exact fallback_isReply rand h
  | some data =>
    simp only
    by_cases h9 : mentionsAny message ["hot", "cold", "warm"] = true
    · rw [if_pos h9]
      refine ⟨_, rfl, ?_⟩
      unfold temperatureReply
      exact append_ne_empty _ _ (append_ne_empty _ _ (append_ne_empty _ _
        (append_ne_empty _ _ (append_ne_empty _ _ (by decide)))))
    rw [if_neg h9]
    by_cases h10 : mentionsAny message ["rain", "sunny", "cloudy"] = true
    · rw [if_pos h10]
      refine ⟨_, rfl, ?_⟩
      unfold conditionReply
      exact append_ne_empty _ _ (append_ne_empty _ _ (append_ne_empty _ _ (by decide)))
    rw [if_neg h10]
    exact fallback_isReply rand h

theorem truthy_of_isReply (value : Option String) (h : IsReply value) :
    truthy value = true := by
  obtain ⟨s, rfl, hs⟩ := h
  simpa [truthy] using hs

theorem generateBotResponse_of_trigger (currentWeatherData : Option WeatherData)
    (rand : RandomSource) (userMessage : String) (h : rand.WellFormed)
    (ht : weatherSpecificTrigger (toLowerCase userMessage) = true) :
    generateBotResponse currentWeatherData rand userMessage =
      (addPersonalityToResponse
        (generateWeatherSpecificResponse currentWeatherData userMessage rand).1
        (generateWeatherSpecificResponse currentWeatherData userMessage rand).2).1 := by
  have hr := truthy_of_isReply _
    (generateWeatherSpecificResponse_isReply currentWeatherData userMessage rand h)
  simp only [generateBotResponse, ht, hr, if_true]

theorem generateBotResponse_of_not_trigger (currentWeatherData : Option WeatherData)
    (rand : RandomSource) (userMessage : String)
    (ht : weatherSpecificTrigger (toLowerCase userMessage) = false) :
    generateBotResponse currentWeatherData rand userMessage =
      keywordDispatch currentWeatherData (toLowerCase userMessage) rand := by
  simp [generateBotResponse, ht]

theorem generateWeatherSpecificResponse_wellFormed (currentWeatherData : Option WeatherData)
    (userMessage : String) (rand : RandomSource) (h : rand.WellFormed) :
    (generateWeatherSpecificResponse currentWeatherData userMessage rand).2.WellFormed := by
  obtain ⟨_, _, t, _, e, _⟩ := getRandomResponse_reply "weather" rand h (by decide)
  cases currentWeatherData with
  | none => exact h
  | some data =>
    simp only [generateWeatherSpecificResponse]
    split_ifs <;> first | exact h | (rw [e]; exact wellFormed_next rand h)

theorem alwaysZero_wellFormed : alwaysZero.WellFormed := by
  intro n
  simp [alwaysZero]

theorem alwaysHalf_wellFormed : alwaysHalf.WellFormed := by
  intro n
  norm_num [alwaysHalf]

theorem getRandomResponse_pick (category : String) (rand : RandomSource)
    (h : rand.WellFormed) (hc : category ∈ responseCategories) :
    ∃ responses, chatbotResponsesAt category = some responses ∧
      ∃ t ∈ responses, (getRandomResponse category rand).1 = some t := by
  obtain ⟨responses, e, t, ht, e2, _⟩ := getRandomResponse_reply category rand h hc
  exact ⟨responses, e, t, ht, by rw [e2]⟩

theorem keywordDispatch_of_intent (currentWeatherData : Option WeatherData)
    (message : String) (rand : RandomSource) (h : rand.WellFormed) (category : String)
    (hi : firstIntent message = some category) :
    ∃ responses, chatbotResponsesAt category = some responses ∧
      ∃ t ∈ responses, keywordDispatch currentWeatherData message rand = some t := by
  rw [keywordDispatch_eq]
  rw [firstIntent_eq] at hi
  by_cases h1 : mentionsAny message ["hello", "hi", "hey"] = true
  · rw [if_pos h1] at hi ⊢
    obtain rfl := Option.some.inj hi
    exact getRandomResponse_pick "greetings" rand h (by decide)
  rw [if_neg h1] at hi ⊢
  by_cases h2 : mentionsAny message ["weather", "temperature", "forecast"] = true
  · rw [if_pos h2] at hi ⊢
    obtain rfl := Option.some.inj hi
    exact getRandomResponse_pick "weather" rand h (by decide)
  rw [if_neg h2] at hi ⊢
  by_cases h3 : mentionsAny message clothingKeywords = true
  · rw [if_pos h3] at hi ⊢
    obtain rfl := Option.some.inj hi
    exact getRandomResponse_pick "clothing" rand h (by decide)
  rw [if_neg h3] at hi ⊢
  by_cases h4 : mentionsAny message activityKeywords = true
  · rw [if_pos h4] at hi ⊢
    obtain rfl := Option.some.inj hi
    exact getRandomResponse_pick "activities" rand h (by decide)
  rw [if_neg h4] at hi ⊢
  by_cases h5 : mentionsAny message ["air quality", "pollution", "air"] = true
  · rw [if_pos h5] at hi ⊢
    obtain rfl := Option.some.inj hi
    exact getRandomResponse_pick "airQuality" rand h (by decide)
  rw [if_neg h5] at hi ⊢
  by_cases h6 : mentionsAny message ["thank", "thanks"] = true
  · rw [if_pos h6] at hi ⊢
    obtain rfl := Option.some.inj hi
    exact getRandomResponse_pick "thanks" rand h (by decide)
  rw [if_neg h6] at hi ⊢
  by_cases h7 : mentionsAny message ["forecast", "5 day", "future"] = true
  · rw [if_pos h7] at hi ⊢
    obtain rfl := Option.some.inj hi
    exact getRandomResponse_pick "forecast" rand h (by decide)
  rw [if_neg h7] at hi ⊢
  by_cases h8 : mentionsAny message ["help", "what can you do", "assist"] = true
  · rw [if_pos h8] at hi ⊢
    obtain rfl := Option.some.inj hi
    exact getRandomResponse_pick "help" rand h (by decide)
  rw [if_neg h8] at hi
  exact Option.noConfusion hi

theorem trigger_of_mentions (message : String)
    (h : mentionsAny message clothingKeywords = true ∨
      mentionsAny message activityKeywords = true) :
    weatherSpecificTrigger message = true := by
  rw [weatherSpecificTrigger_eq, Bool.or_eq_true]
  exact h

theorem not_trigger_of_not_mentions (message : String)
    (hc : mentionsAny message clothingKeywords = false)
    (ha : mentionsAny message activityKeywords = false) :
    weatherSpecificTrigger message = false := by
  rw [weatherSpecificTrigger_eq, hc, ha]
  rfl

/-! ## Chatbot replies: the claims -/

/-- C16: `generateBotResponse` returns a non-empty string for every user text, every
current observation or none, and every random source with results in `[0, 1)`; the
model has no failing read, so nothing is thrown. -/
theorem generateBotResponse_total (currentWeatherData : Option WeatherData)
    (rand : RandomSource) (userMessage : String) (h : rand.WellFormed) :
    ∃ s, generateBotResponse currentWeatherData rand userMessage = some s ∧ s ≠ "" := by
  cases ht : weatherSpecificTrigger (toLowerCase userMessage) with
  | true =>
    rw [generateBotResponse_of_trigger _ _ _ h ht]
    exact addPersonalityToResponse_isReply _ _
      (generateWeatherSpecificResponse_wellFormed _ _ _ h)
      (generateWeatherSpecificResponse_isReply _ _ _ h)
  | false =>
    rw [generateBotResponse_of_not_trigger _ _ _ ht]
    exact keywordDispatch_isReply _ _ _ h

/-- Witness of C16 on the text `asdkqwe`, which has no keyword, at 35 °C. -/
theorem generateBotResponse_total_witness :
    alwaysHalf.WellFormed ∧
    firstIntent (toLowerCase "asdkqwe") = none ∧
    ∃ s, generateBotResponse (some heatWave) alwaysHalf "asdkqwe" = some s ∧ s ≠ "" :=
  ⟨alwaysHalf_wellFormed, by decide,
    generateBotResponse_total (some heatWave) alwaysHalf "asdkqwe" alwaysHalf_wellFormed⟩

/-- C17 (amended): for a text whose lowercase form has a clothing or an activity
keyword and no current observation, the reply of `generateBotResponse` is the fixed
prompt when the first random draw is at least 0.3, and a personality phrase, a space
and the prompt when it is below 0.3. -/
theorem generateBotResponse_without_observation (rand : RandomSource) (userMessage : String)
    (h : rand.WellFormed)
    (ht : mentionsAny (toLowerCase userMessage) clothingKeywords = true ∨
      mentionsAny (toLowerCase userMessage) activityKeywords = true) :
    (rand 0 < 3 / 10 ∧ ∃ p ∈ personalityResponses,
      generateBotResponse none rand userMessage = some (p ++ " " ++ searchFirstPrompt)) ∨
    (¬ rand 0 < 3 / 10 ∧ generateBotResponse none rand userMessage = some searchFirstPrompt) := by
  rw [generateBotResponse_of_trigger none rand userMessage h (trigger_of_mentions _ ht)]
  exact addPersonalityToResponse_cases searchFirstPrompt rand h

/-- Witness of C17 (amended) on `what should I wear` with every draw 1/2. -/
theorem generateBotResponse_without_observation_witness :
    mentionsAny (toLowerCase "what should I wear") clothingKeywords = true ∧
    generateBotResponse none alwaysHalf "what should I wear" = some searchFirstPrompt :=
  ⟨by decide,
    ((generateBotResponse_without_observation alwaysHalf "what should I wear"
      alwaysHalf_wellFormed (Or.inl (by decide))).resolve_left
        (fun hc => absurd hc.1 (by norm_num [alwaysHalf]))).2⟩

/-- C20: when the lowercase text has no clothing and no activity keyword and has a
keyword of some category, the reply of `generateBotResponse` is a template of the reply
list of the first category, in checking order, with a keyword in the text. -/
theorem generateBotResponse_first_category (currentWeatherData : Option WeatherData)
    (rand : RandomSource) (userMessage : String) (h : rand.WellFormed)
    (hc : mentionsAny (toLowerCase userMessage) clothingKeywords = false)
    (ha : mentionsAny (toLowerCase userMessage) activityKeywords = false)
    (category : String) (hi : firstIntent (toLowerCase userMessage) = some category) :
    ∃ responses, chatbotResponsesAt category = some responses ∧
      ∃ t ∈ responses, generateBotResponse currentWeatherData rand userMessage = some t := by
  rw [generateBotResponse_of_not_trigger _ _ _ (not_trigger_of_not_mentions _ hc ha)]
  exact keywordDispatch_of_intent _ _ _ h category hi

/-- Witness of C20 on `Thanks for the forecast`: the text has a WeatherGeneral and a
Thanks keyword and a template of the WeatherGeneral list is returned. -/
theorem generateBotResponse_first_category_witness :
    mentionsAny (toLowerCase "Thanks for the forecast") ["thank", "thanks"] = true ∧
    ∃ responses, chatbotResponsesAt "weather" = some responses ∧
      ∃ t ∈ responses,
        generateBotResponse (some heatWave) alwaysHalf "Thanks for the forecast" = some t :=
  ⟨by decide,
    generateBotResponse_first_category (some heatWave) alwaysHalf "Thanks for the forecast"
      alwaysHalf_wellFormed (by decide) (by decide) "weather" (by decide)⟩

/-- Counterexample to C17: with every draw 0 and no current observation, the reply to
`what should I wear` is the prompt preceded by a personality phrase, not the prompt. -/
theorem generateBotResponse_prompt_with_personality :
    mentionsAny (toLowerCase "what should I wear") clothingKeywords = true ∧
    alwaysZero 0 < 1 ∧
    generateBotResponse none alwaysZero "what should I wear"
      = some ("That's a great question! 🤔" ++ " " ++ searchFirstPrompt) ∧
    generateBotResponse none alwaysZero "what should I wear" ≠ some searchFirstPrompt := by
  decide!

/-- C18: at 35 °C with every draw 1/2, the reply to `outfit` is the clothing advice for
hot weather, and the reply to `OUTFIT`, whose lowercase form is `outfit`, is a general
weather template: the first `if` tests the lowercased text, and
`generateWeatherSpecificResponse` is handed the text as typed. -/
theorem generateBotResponse_case_sensitive :
    toLowerCase "OUTFIT" = "outfit" ∧
    generateBotResponse (some heatWave) alwaysHalf "outfit" = some (hotOutfitAdvice 35) ∧
    generateBotResponse (some heatWave) alwaysHalf "OUTFIT" = weatherResponses[1]? ∧
    generateBotResponse (some heatWave) alwaysHalf "OUTFIT"
      ≠ generateBotResponse (some heatWave) alwaysHalf (toLowerCase "OUTFIT") := by
  decide!

/-- C19: at 35 °C with every draw 1/2, the reply to `what should I wear`, which has
the clothing keyword `wear`, is a general weather template; it is none of the four
clothing sentences for 35 °C, with or without a personality phrase in front. -/
theorem generateBotResponse_wear_generic :
    mentionsAny (toLowerCase "what should I wear") clothingKeywords = true ∧
    generateBotResponse (some heatWave) alwaysHalf "what should I wear"
      = weatherResponses[1]? ∧
    ∀ a ∈ outfitAdvices heatWave.temp,
      generateBotResponse (some heatWave) alwaysHalf "what should I wear" ≠ some a ∧
      ∀ p ∈ personalityResponses,
        generateBotResponse (some heatWave) alwaysHalf "what should I wear"
          ≠ some (p ++ " " ++ a) := by
  decide!

/-! ## Air quality, unit toggle and band agreement: the claims -/

/-- C24: the description chosen in `generateAirQualityData` is the band of the first of
the bounds 50 (Good), 100 (Moderate), 150 (Unhealthy for Sensitive Groups) that is at
least the score, and `Unhealthy` for a score above every bound; this holds for every
integer score and for the score drawn by the function. -/
theorem aqiBand_upper_bound_scan (score : ℤ) :
    (aqiBand score).1 = classifyIndex score aqiBounds "Unhealthy" ∧
    (150 < score → (aqiBand score).1 = "Unhealthy") ∧
    ∀ rand : RandomSource,
      (generateAirQualityData rand).description
        = classifyIndex (generateAirQualityData rand).aqi aqiBounds "Unhealthy" := by
  have key : ∀ n : ℤ, (aqiBand n).1 = classifyIndex n aqiBounds "Unhealthy" := by
    intro n
    simp only [aqiBand, classifyIndex, aqiBounds, List.find?]
    by_cases h1 : n ≤ 50
    · simp [h1]
    · by_cases h2 : n ≤ 100
      · simp [h1, h2]
      · by_cases h3 : n ≤ 150
        · simp [h1, h2, h3]
        · simp [h1, h2, h3]
  refine ⟨key score, ?_, fun rand => key _⟩
  intro h
  have h1 : ¬ score ≤ 50 := by omega
  have h2 : ¬ score ≤ 100 := by omega
  have h3 : ¬ score ≤ 150 := by omega
  simp [aqiBand, h1, h2, h3]

theorem mathRound_eq_iff (x : ℚ) (z : ℤ) :
    mathRound x = z ↔ (z : ℚ) ≤ x + 1 / 2 ∧ x + 1 / 2 < z + 1 := by
  have e : mathRound x = ⌊x + 1 / 2⌋ := rfl
  rw [e, Int.floor_eq_iff]

theorem fahrenheitToCelsius_celsiusToFahrenheit (c : ℤ) :
    fahrenheitToCelsius (celsiusToFahrenheit c) = c := by
  obtain ⟨h1, h2⟩ := (mathRound_eq_iff ((c : ℚ) * 9 / 5 + 32) (celsiusToFahrenheit c)).1 rfl
  rw [fahrenheitToCelsius, mathRound_eq_iff]
  constructor <;> linarith

/-- C30: for every integer Celsius value `c`, `round(c * 9/5 + 32)` converted back with
`round((f - 32) * 5/9)` is `c` again, so two calls of `toggleTemperatureUnit` on a
metric panel showing integers restore the readings. -/
theorem toggleTemperatureUnit_round_trip (c : ℤ) :
    fahrenheitToCelsius (celsiusToFahrenheit c) = c ∧
    ∀ (feelsLike : ℤ) (unit : String),
      toggleTemperatureUnit (toggleTemperatureUnit ⟨true, some (c, feelsLike), unit⟩)
        = ⟨true, some (c, feelsLike), "°C"⟩ := by
  refine ⟨fahrenheitToCelsius_celsiusToFahrenheit c, ?_⟩
  intro feelsLike unit
  simp [toggleTemperatureUnit, fahrenheitToCelsius_celsiusToFahrenheit]

/-- C29: at exactly 30 °C `generateClothingRecommendations` selects the hot profile
(`temp >= 30`) while `generateWeatherSpecificResponse`, asked about an outfit, takes the
branch `temp > 20` after failing `temp > 30` and returns the pleasant-weather sentence,
not the hot-weather one. -/
theorem outfit_bands_disagree_at_30 :
    baseProfile thirtyDegrees.temp = hotProfile ∧
    (generateClothingRecommendations thirtyDegrees).character = hotProfile.character ∧
    (generateWeatherSpecificResponse (some thirtyDegrees) "outfit" alwaysHalf).1
      = some (pleasantOutfitAdvice 30) ∧
    (generateWeatherSpecificResponse (some thirtyDegrees) "outfit" alwaysHalf).1
      ≠ some (hotOutfitAdvice 30) := by
  decide!

theorem baseProfile_eq_hot_iff (temp : ℚ) : baseProfile temp = hotProfile ↔ 30 ≤ temp := by
  rcases baseProfile_cases temp with ⟨a, e⟩ | ⟨a, b, e⟩ | ⟨a, b, e⟩ | ⟨a, e⟩ <;> rw [e]
  · exact ⟨fun _ => a, fun _ => rfl⟩
  · exact ⟨fun h => absurd h (by decide), fun h => by linarith⟩
  · exact ⟨fun h => absurd h (by decide), fun h => by linarith⟩
  · exact ⟨fun h => absurd h (by decide), fun h => by linarith⟩

theorem baseProfile_eq_cold_iff (temp : ℚ) : baseProfile temp = coldProfile ↔ temp < 10 := by
  rcases baseProfile_cases temp with ⟨a, e⟩ | ⟨a, b, e⟩ | ⟨a, b, e⟩ | ⟨a, e⟩ <;> rw [e]
  · exact ⟨fun h => absurd h (by decide), fun h => by linarith⟩
  · exact ⟨fun h => absurd h (by decide), fun h => by linarith⟩
  · exact ⟨fun h => absurd h (by decide), fun h => by linarith⟩
  · exact ⟨fun _ => a, fun _ => rfl⟩

theorem baseProfile_mem (temp : ℚ) :
    baseProfile temp ∈ [hotProfile, warmProfile, coolProfile, coldProfile] := by
  rcases baseProfile_cases temp with ⟨_, e⟩ | ⟨_, _, e⟩ | ⟨_, _, e⟩ | ⟨_, e⟩ <;> rw [e] <;>
    simp

theorem accessoriesFor_facts :
    ∀ profile ∈ [hotProfile, warmProfile, coolProfile, coldProfile], ∀ rain wind : Bool,
      (windproofJacket ∈ accessoriesFor profile rain wind ↔
        (wind = true ∧ ¬ (rain = true ∧ (profile = hotProfile ∨ profile = coldProfile)))) ∧
      (rain = true → rainUmbrella ∈ accessoriesFor profile rain wind ∧
        waterproofShoes ∈ accessoriesFor profile rain wind) := by
  decide

theorem accessories_eq_accessoriesFor (data : WeatherData) :
    (generateClothingRecommendations data).accessories
      = accessoriesFor (baseProfile data.temp) (includes (toLowerCase data.main) "rain")
          (decide (data.windSpeed > 8)) := by
  simp only [generateClothingRecommendations, accessoryCandidates_eq, declaredAccessories,
    accessoriesFor, decide_eq_true_eq]

/-- C26: the `Windproof Jacket` is in the accessory list of
`generateClothingRecommendations` iff the wind speed is above 8 and it is not the case
that the condition contains `rain` while the temperature is at least 30 or below 10;
and whenever the condition contains `rain`, the rain umbrella and the waterproof shoes
are both in the list. -/
theorem windproofJacket_mem_iff (data : WeatherData) :
    (windproofJacket ∈ (generateClothingRecommendations data).accessories ↔
      data.windSpeed > 8 ∧
        ¬ (includes (toLowerCase data.main) "rain" = true ∧
          (data.temp ≥ 30 ∨ data.temp < 10))) ∧
    (includes (toLowerCase data.main) "rain" = true →
      rainUmbrella ∈ (generateClothingRecommendations data).accessories ∧
      waterproofShoes ∈ (generateClothingRecommendations data).accessories) := by
  have h := accessoriesFor_facts (baseProfile data.temp) (baseProfile_mem data.temp)
    (includes (toLowerCase data.main) "rain") (decide (data.windSpeed > 8))
  rw [accessories_eq_accessoriesFor]
  rw [baseProfile_eq_hot_iff, baseProfile_eq_cold_iff, decide_eq_true_eq] at h
  exact h

/-! ## The fallback activity: the claim -/

theorem activityCandidates_eq_before (data : WeatherData) :
    activityCandidates data = activitiesBefore data ++ [cookingWorkshop] := rfl

theorem cookingWorkshop_not_mem_before (data : WeatherData) :
    cookingWorkshop ∉ activitiesBefore data := by
  simp only [activitiesBefore, List.mem_append, not_or]
  refine ⟨⟨⟨⟨⟨?_, ?_⟩, ?_⟩, ?_⟩, ?_⟩, ?_⟩ <;> split_ifs <;>
    simp [cookingWorkshop, beachDay, outdoorBBQ, hikingNatureWalk, cyclingAdventure,
      photographyWalk, museumVisit, cozyReading, winterSports, kiteFlying]

theorem activitiesBefore_length (data : WeatherData) :
    (activitiesBefore data).length =
      (if 25 ≤ data.temp then 2 else 0)
        + (if 15 ≤ data.temp ∧ data.temp ≤ 25 ∧ toLowerCase data.main ≠ "rain" then 2 else 0)
        + (if 10 ≤ data.temp ∧ data.temp ≤ 20 then 1 else 0)
        + (if includes (toLowerCase data.main) "rain" = true then 2 else 0)
        + (if includes (toLowerCase data.main) "snow" = true then 1 else 0)
        + (if 5 < data.windSpeed ∧ data.windSpeed < 15 then 1 else 0) := by
  simp only [activitiesBefore, List.length_append, ge_iff_le, gt_iff_lt]
  split_ifs <;> rfl

theorem mem_take_append_singleton {α : Type} (a : α) (l : List α) (n : ℕ) (h : a ∉ l) :
    a ∈ (l ++ [a]).take n ↔ l.length < n := by
  rw [List.take_append_eq_append_take, List.mem_append]
  constructor
  · rintro (h1 | h1)
    · exact absurd (List.mem_of_mem_take h1) h
    · by_contra hc
      have : n - l.length = 0 := by omega
      rw [this] at h1
      simp at h1
  · intro hl
    right
    have : n - l.length = (n - l.length - 1) + 1 := by omega
    rw [this]
    simp

set_option linter.unusedTactic false in
set_option linter.unreachableTactic false in
theorem count_lemma (t w : ℚ) (r s notRain : Prop) [Decidable r] [Decidable s]
    [Decidable notRain] (hrs : r → ¬ s) (hr : r → ¬ notRain) (hs : s → notRain) :
    ¬ ((if 25 ≤ t then 2 else 0) + (if 15 ≤ t ∧ t ≤ 25 ∧ notRain then 2 else 0)
        + (if 10 ≤ t ∧ t ≤ 20 then 1 else 0) + (if r then 2 else 0) + (if s then 1 else 0)
        + (if 5 < w ∧ w < 15 then 1 else 0) < 6)
      ↔ t = 25 ∧ s ∧ 5 < w ∧ w < 15 := by
  constructor
  · intro h
    have hs1 : s := by
      by_contra hc
      apply h
      split_ifs <;> first | omega | (exfalso; first | linarith | tauto)
    have hk : 5 < w ∧ w < 15 := by
      by_contra hc
      apply h
      split_ifs <;> first | omega | (exfalso; first | linarith | tauto)
    have h25 : 25 ≤ t := by
      by_contra hc
      apply h
      split_ifs <;> first | omega | (exfalso; first | linarith | tauto)
    have h25b : t ≤ 25 := by
      by_contra hc
      apply h
      split_ifs <;> first | omega | (exfalso; first | linarith | tauto)
    exact ⟨le_antisymm h25b h25, hs1, hk⟩
  · rintro ⟨rfl, hs1, hk⟩
    have hnr : ¬ r := fun h1 => hrs h1 hs1
    have hn := hs hs1
    have c1 : (25 : ℚ) ≤ 25 := le_refl _
    have c2 : (15 : ℚ) ≤ 25 ∧ (25 : ℚ) ≤ 25 ∧ notRain := ⟨by norm_num, le_refl _, hn⟩
    have c3 : ¬ ((10 : ℚ) ≤ 25 ∧ (25 : ℚ) ≤ 20) := by norm_num
    rw [if_pos c1, if_pos c2, if_neg c3, if_neg hnr, if_pos hs1, if_pos hk]
    decide

/-- C25: for an observation whose lowercased condition is one of clear, clouds, rain,
snow, thunderstorm, mist, fog, `Cooking Workshop` is missing from the result of
`generateActivitySuggestions` iff the temperature is exactly 25, the condition is snow
and the wind speed is strictly between 5 and 15. -/
theorem cookingWorkshop_absent_iff (data : WeatherData)
    (hc : toLowerCase data.main ∈ standardConditions) :
    cookingWorkshop ∉ generateActivitySuggestions data ↔
      data.temp = 25 ∧ toLowerCase data.main = "snow" ∧
        5 < data.windSpeed ∧ data.windSpeed < 15 := by
  have hfacts :
      (includes (toLowerCase data.main) "rain" = true →
        ¬ includes (toLowerCase data.main) "snow" = true) ∧
      (includes (toLowerCase data.main) "rain" = true → ¬ toLowerCase data.main ≠ "rain") ∧
      (includes (toLowerCase data.main) "snow" = true → toLowerCase data.main ≠ "rain") ∧
      (includes (toLowerCase data.main) "snow" = true ↔ toLowerCase data.main = "snow") := by
    simp only [standardConditions, List.mem_cons, List.mem_singleton, List.not_mem_nil,
      or_false] at hc
    rcases hc with h | h | h | h | h | h | h <;> rw [h] <;> decide
  obtain ⟨f1, f2, f3, f4⟩ := hfacts
  rw [generateActivitySuggestions, activityCandidates_eq_before,
    mem_take_append_singleton _ _ _ (cookingWorkshop_not_mem_before data),
    activitiesBefore_length, count_lemma _ _ _ _ _ f1 f2 f3, f4]

/-- Witness of C25 at 25 °C with snow and a wind of 10 m/s. -/
theorem cookingWorkshop_absent_iff_witness :
    toLowerCase warmSnow.main ∈ standardConditions ∧
    cookingWorkshop ∉ generateActivitySuggestions warmSnow :=
  ⟨by decide,
    (cookingWorkshop_absent_iff warmSnow (by decide)).2 (by decide)⟩

/-! ## Chatbot replies: greeting, unknown and observation-quoting replies -/

theorem includesChars_iff_block (sub l : List Char) :
    includesChars sub l = true ↔ sub <:+: l := by
  induction l with
  | nil =>
    cases sub with
    | nil => simp [includesChars]
    | cons a as => simp [includesChars, List.isPrefixOf]
  | cons c cs ih =>
    rw [includesChars, Bool.or_eq_true, ih, List.isPrefixOf_iff_prefix, List.infix_cons_iff]

theorem includes_iff_block (s sub : String) :
    includes s sub = true ↔ sub.data <:+: s.data :=
  includesChars_iff_block _ _

theorem includes_append_right (s sub : String) : includes (s ++ sub) sub = true := by
  rw [includes_iff_block, String.data_append]
  exact List.infix_append' s.data sub.data [] |>.trans (by simp)

theorem includes_append_of_left (s t sub : String) (h : includes s sub = true) :
    includes (s ++ t) sub = true := by
  rw [includes_iff_block] at h ⊢
  rw [String.data_append]
  exact h.trans (List.infix_append' [] s.data t.data)

theorem firstIntent_none (message : String) (h : firstIntent message = none) :
    mentionsAny message ["hello", "hi", "hey"] = false ∧
    mentionsAny message ["weather", "temperature", "forecast"] = false ∧
    mentionsAny message clothingKeywords = false ∧
    mentionsAny message activityKeywords = false ∧
    mentionsAny message ["air quality", "pollution", "air"] = false ∧
    mentionsAny message ["thank", "thanks"] = false ∧
    mentionsAny message ["forecast", "5 day", "future"] = false ∧
    mentionsAny message ["help", "what can you do", "assist"] = false := by
  rw [firstIntent_eq] at h
  by_cases h1 : mentionsAny message ["hello", "hi", "hey"] = true
  · rw [if_pos h1] at h; exact Option.noConfusion h
  rw [if_neg h1] at h
  by_cases h2 : mentionsAny message ["weather", "temperature", "forecast"] = true
  · rw [if_pos h2] at h; exact Option.noConfusion h
  rw [if_neg h2] at h
  by_cases h3 : mentionsAny message clothingKeywords = true
  · rw [if_pos h3] at h; exact Option.noConfusion h
  rw [if_neg h3] at h
  by_cases h4 : mentionsAny message activityKeywords = true
  · rw [if_pos h4] at h; exact Option.noConfusion h
  rw [if_neg h4] at h
  by_cases h5 : mentionsAny message ["air quality", "pollution", "air"] = true
  · rw [if_pos h5] at h; exact Option.noConfusion h
  rw [if_neg h5] at h
  by_cases h6 : mentionsAny message ["thank", "thanks"] = true
  · rw [if_pos h6] at h; exact Option.noConfusion h
  rw [if_neg h6] at h
  by_cases h7 : mentionsAny message ["forecast", "5 day", "future"] = true
  · rw [if_pos h7] at h; exact Option.noConfusion h
  rw [if_neg h7] at h
  by_cases h8 : mentionsAny message ["help", "what can you do", "assist"] = true
  · rw [if_pos h8] at h; exact Option.noConfusion h
  exact ⟨Bool.eq_false_iff.2 h1, Bool.eq_false_iff.2 h2, Bool.eq_false_iff.2 h3,
    Bool.eq_false_iff.2 h4, Bool.eq_false_iff.2 h5, Bool.eq_false_iff.2 h6,
    Bool.eq_false_iff.2 h7, Bool.eq_false_iff.2 h8⟩

theorem keywordDispatch_of_no_intent (currentWeatherData : Option WeatherData)
    (message : String) (rand : RandomSource) (h : firstIntent message = none) :
    keywordDispatch currentWeatherData message rand =
      match currentWeatherData with
      | none =>
        (addPersonalityToResponse (getRandomResponse "unknown" rand).1
          (getRandomResponse "unknown" rand).2).1
      | some data =>
        if mentionsAny message ["hot", "cold", "warm"] then
          some (temperatureReply data.temp (getRandomResponse "clothing" rand).1)
        else if mentionsAny message ["rain", "sunny", "cloudy"] then
          some (conditionReply (toLowerCase data.main) (getRandomResponse "weather" rand).1)
        else
          (addPersonalityToResponse (getRandomResponse "unknown" rand).1
            (getRandomResponse "unknown" rand).2).1 := by
  obtain ⟨h1, h2, h3, h4, h5, h6, h7, h8⟩ := firstIntent_none message h
  rw [keywordDispatch_eq, h1, h2, h3, h4, h5, h6, h7, h8]
  simp only [Bool.false_eq_true, if_false]

theorem fallback_cases (rand : RandomSource) (h : rand.WellFormed) :
    ∃ u ∈ unknownResponses,
      (rand 1 < 3 / 10 ∧ ∃ p ∈ personalityResponses,
        (addPersonalityToResponse (getRandomResponse "unknown" rand).1
          (getRandomResponse "unknown" rand).2).1 = some (p ++ " " ++ u)) ∨
      (¬ rand 1 < 3 / 10 ∧
        (addPersonalityToResponse (getRandomResponse "unknown" rand).1
          (getRandomResponse "unknown" rand).2).1 = some u) := by
  obtain ⟨u, hu, e⟩ := getRandomResponse_mem "unknown" unknownResponses rand h rfl (by decide)
  refine ⟨u, hu, ?_⟩
  rw [e]
  exact addPersonalityToResponse_cases u rand.next (wellFormed_next rand h)

/-- C21: a text whose lowercase form contains `hello`, `hi` or `hey` and no clothing or
activity keyword gets, for every current observation or none, one of the three Greeting
templates, a non-empty string. -/
theorem generateBotResponse_greeting (currentWeatherData : Option WeatherData)
    (rand : RandomSource) (userMessage : String) (h : rand.WellFormed)
    (hg : mentionsAny (toLowerCase userMessage) ["hello", "hi", "hey"] = true)
    (hc : mentionsAny (toLowerCase userMessage) clothingKeywords = false)
    (ha : mentionsAny (toLowerCase userMessage) activityKeywords = false) :
    ∃ t ∈ greetingResponses,
      generateBotResponse currentWeatherData rand userMessage = some t ∧ t ≠ "" := by
  rw [generateBotResponse_of_not_trigger _ _ _ (not_trigger_of_not_mentions _ hc ha),
    keywordDispatch_eq, if_pos hg]
  obtain ⟨t, ht, e⟩ :=
    getRandomResponse_mem "greetings" greetingResponses rand h rfl (by decide)
  have hne : ∀ t ∈ greetingResponses, t ≠ "" := by decide
  exact ⟨t, ht, by rw [e], hne t ht⟩

/-- Witness of C21 on the text `hello` without a current observation. -/
theorem generateBotResponse_greeting_witness :
    ∃ t ∈ greetingResponses, generateBotResponse none alwaysHalf "hello" = some t ∧ t ≠ "" :=
  generateBotResponse_greeting none alwaysHalf "hello" alwaysHalf_wellFormed (by decide)
    (by decide) (by decide)

/-- C22: a text whose lowercase form has no keyword of any category and none of the
keywords hot, cold, warm, rain, sunny, cloudy gets, for every current observation or
none, an Unknown template `u`, preceded by a personality phrase and a space exactly when
the draw of `addPersonalityToResponse` (the second result of the random source) is below
0.3. -/
theorem generateBotResponse_unknown (currentWeatherData : Option WeatherData)
    (rand : RandomSource) (userMessage : String) (h : rand.WellFormed)
    (hi : firstIntent (toLowerCase userMessage) = none)
    (hk : mentionsAny (toLowerCase userMessage) contextKeywords = false) :
    ∃ u ∈ unknownResponses,
      (rand 1 < 3 / 10 ∧ ∃ p ∈ personalityResponses,
        generateBotResponse currentWeatherData rand userMessage = some (p ++ " " ++ u)) ∨
      (¬ rand 1 < 3 / 10 ∧
        generateBotResponse currentWeatherData rand userMessage = some u) := by
  obtain ⟨_, _, h3, h4, _⟩ := firstIntent_none _ hi
  have hk2 : mentionsAny (toLowerCase userMessage) ["hot", "cold", "warm"] = false ∧
      mentionsAny (toLowerCase userMessage) ["rain", "sunny", "cloudy"] = false := by
    have e : contextKeywords = ["hot", "cold", "warm"] ++ ["rain", "sunny", "cloudy"] := rfl
    rw [e, mentionsAny, List.any_append, Bool.or_eq_false_iff] at hk
    exact hk
  rw [generateBotResponse_of_not_trigger _ _ _ (not_trigger_of_not_mentions _ h3 h4),
    keywordDispatch_of_no_intent _ _ _ hi]
  cases currentWeatherData with
  | none => exact fallback_cases rand h
  | some data =>
    simp only [hk2.1, hk2.2, Bool.false_eq_true, if_false]
    exact fallback_cases rand h

/-- Witness of C22 on the text `asdkqwe` at 35 °C with every draw 1/2: the second
Unknown template, without a personality phrase. -/
theorem generateBotResponse_unknown_witness :
    ∃ u ∈ unknownResponses,
      (alwaysHalf 1 < 3 / 10 ∧ ∃ p ∈ personalityResponses,
        generateBotResponse (some heatWave) alwaysHalf "asdkqwe" = some (p ++ " " ++ u)) ∨
      (¬ alwaysHalf 1 < 3 / 10 ∧
        generateBotResponse (some heatWave) alwaysHalf "asdkqwe" = some u) :=
  generateBotResponse_unknown (some heatWave) alwaysHalf "asdkqwe" alwaysHalf_wellFormed
    (by decide) (by decide)

/-- Counterexample to C23: at 35 °C under a clear sky, `hot weather` has the keyword
`hot` and gets a WeatherGeneral template without the temperature, and `hot rain` has
the keyword `rain` and gets the temperature reply, without the condition text. -/
theorem generateBotResponse_hot_weather :
    weatherSpecificTrigger (toLowerCase "hot weather") = false ∧
    includes (toLowerCase "hot weather") "hot" = true ∧
    generateBotResponse (some heatWave) alwaysHalf "hot weather" = weatherResponses[1]? ∧
    (generateBotResponse (some heatWave) alwaysHalf "hot weather").map
      (fun reply => includes reply (numberToString (mathRound heatWave.temp))) = some false ∧
    weatherSpecificTrigger (toLowerCase "hot rain") = false ∧
    includes (toLowerCase "hot rain") "rain" = true ∧
    (generateBotResponse (some heatWave) alwaysHalf "hot rain").map
      (fun reply => includes reply (toLowerCase heatWave.main)) = some false := by
  decide!

/-- C23 (amended): for a text whose lowercase form has no keyword of any category and a
current observation, the reply contains the rounded temperature if the text contains
`hot`, `cold` or `warm`, and otherwise contains the lowercased condition if the text
contains `rain`, `sunny` or `cloudy`. -/
theorem generateBotResponse_quotes_observation (data : WeatherData) (rand : RandomSource)
    (userMessage : String) (hi : firstIntent (toLowerCase userMessage) = none) :
    (mentionsAny (toLowerCase userMessage) ["hot", "cold", "warm"] = true →
      ∃ reply, generateBotResponse (some data) rand userMessage = some reply ∧
        includes reply (numberToString (mathRound data.temp)) = true) ∧
    (mentionsAny (toLowerCase userMessage) ["hot", "cold", "warm"] = false →
      mentionsAny (toLowerCase userMessage) ["rain", "sunny", "cloudy"] = true →
      ∃ reply, generateBotResponse (some data) rand userMessage = some reply ∧
        includes reply (toLowerCase data.main) = true) := by
  obtain ⟨_, _, h3, h4, _⟩ := firstIntent_none _ hi
  rw [generateBotResponse_of_not_trigger _ _ _ (not_trigger_of_not_mentions _ h3 h4),
    keywordDispatch_of_no_intent _ _ _ hi]
  constructor
  · intro h1
    simp only [h1, if_true]
    refine ⟨_, rfl, ?_⟩
    unfold temperatureReply
    exact includes_append_of_left _ _ _ (includes_append_of_left _ _ _
      (includes_append_of_left _ _ _ (includes_append_of_left _ _ _
        (includes_append_right _ _))))
  · intro h1 h2
    simp only [h1, h2, Bool.false_eq_true, if_false, if_true]
    refine ⟨_, rfl, ?_⟩
    unfold conditionReply
    exact includes_append_of_left _ _ _ (includes_append_of_left _ _ _
      (includes_append_right _ _))

/-- Witness of C23 (amended) on `so hot` and on `so sunny` at 35 °C under a clear sky. -/
theorem generateBotResponse_quotes_observation_witness :
    (∃ reply, generateBotResponse (some heatWave) alwaysHalf "so hot" = some reply ∧
      includes reply (numberToString (mathRound heatWave.temp)) = true) ∧
    (∃ reply, generateBotResponse (some heatWave) alwaysHalf "so sunny" = some reply ∧
      includes reply (toLowerCase heatWave.main) = true) :=
  ⟨(generateBotResponse_quotes_observation heatWave alwaysHalf "so hot" (by decide)).1
      (by decide),
    (generateBotResponse_quotes_observation heatWave alwaysHalf "so sunny" (by decide)).2
      (by decide) (by decide)⟩

/-! ## Chatbot replies: which replies can be a template of a given list -/

theorem head4_append (a b : String) (h : 4 ≤ a.data.length) : head4 (a ++ b) = head4 a := by
  simp only [head4, String.data_append]
  exact List.take_append_of_le_length h

theorem length_append_ge (a b : String) (h : 4 ≤ a.data.length) :
    4 ≤ (a ++ b).data.length := by
  rw [String.data_append, List.length_append]
  omega

theorem head4_mem_of_mem (s : String) (h : s ∈ replyStarts) :
    head4 s ∈ replyStarts.map head4 :=
  List.mem_map_of_mem head4 h

theorem weatherResponses_subset (t : String) (h : t ∈ weatherResponses) : t ∈ replyStarts := by
  simp only [replyStarts, List.mem_append]
  exact Or.inl (Or.inl (Or.inr h))

theorem unknownResponses_subset (t : String) (h : t ∈ unknownResponses) : t ∈ replyStarts := by
  simp only [replyStarts, List.mem_append]
  exact Or.inl (Or.inr h)

theorem personalityResponses_subset (t : String) (h : t ∈ personalityResponses) :
    t ∈ replyStarts := by
  simp only [replyStarts, List.mem_append]
  exact Or.inr h

theorem personalityResponses_long : ∀ p ∈ personalityResponses, 4 ≤ p.data.length := by
  decide

theorem addPersonalityToResponse_head (s : String) (rand : RandomSource)
    (h : rand.WellFormed) (hs : head4 s ∈ replyStarts.map head4) :
    ∃ reply, (addPersonalityToResponse (some s) rand).1 = some reply ∧
      head4 reply ∈ replyStarts.map head4 := by
  rcases addPersonalityToResponse_cases s rand h with ⟨_, p, hp, e⟩ | ⟨_, e⟩
  · refine ⟨_, e, ?_⟩
    rw [head4_append _ _ (length_append_ge _ _ (personalityResponses_long p hp)),
      head4_append _ _ (personalityResponses_long p hp)]
    exact head4_mem_of_mem p (personalityResponses_subset p hp)
  · exact ⟨s, e, hs⟩

theorem getRandomResponse_weather_head (rand : RandomSource) (h : rand.WellFormed) :
    ∃ s, getRandomResponse "weather" rand = (some s, rand.next) ∧
      head4 s ∈ replyStarts.map head4 := by
  obtain ⟨t, ht, e⟩ := getRandomResponse_mem "weather" weatherResponses rand h rfl (by decide)
  exact ⟨t, e, head4_mem_of_mem t (weatherResponses_subset t ht)⟩

theorem generateWeatherSpecificResponse_head (currentWeatherData : Option WeatherData)
    (userMessage : String) (rand : RandomSource) (h : rand.WellFormed) :
    ∃ s, (generateWeatherSpecificResponse currentWeatherData userMessage rand).1 = some s ∧
      head4 s ∈ replyStarts.map head4 := by
  obtain ⟨w, hw, hwh⟩ := getRandomResponse_weather_head rand h
  cases currentWeatherData with
  | none => exact ⟨searchFirstPrompt, rfl, by decide⟩
  | some data =>
    simp only [generateWeatherSpecificResponse]
    split_ifs
    · refine ⟨_, rfl, ?_⟩
      unfold hotOutfitAdvice
      rw [head4_append _ _ (length_append_ge _ _ (by decide)), head4_append _ _ (by decide)]
      decide
    · refine ⟨_, rfl, ?_⟩
      unfold pleasantOutfitAdvice
      rw [head4_append _ _ (length_append_ge _ _ (by decide)), head4_append _ _ (by decide)]
      decide
    · refine ⟨_, rfl, ?_⟩
      unfold layeringOutfitAdvice
      rw [head4_append _ _ (length_append_ge _ _ (by decide)), head4_append _ _ (by decide)]
      decide
    · refine ⟨_, rfl, ?_⟩
      unfold coldOutfitAdvice
      rw [head4_append _ _ (length_append_ge _ _ (by decide)), head4_append _ _ (by decide)]
      decide
    · exact ⟨rainyActivityAdvice, rfl, by decide⟩
    · refine ⟨_, rfl, ?_⟩
      unfold beachActivityAdvice
      rw [head4_append _ _ (length_append_ge _ _ (by decide)), head4_append _ _ (by decide)]
      decide
    · refine ⟨_, rfl, ?_⟩
      unfold hikingActivityAdvice
      rw [head4_append _ _ (length_append_ge _ _ (by decide)), head4_append _ _ (by decide)]
      decide
    · exact ⟨w, by rw [hw], hwh⟩
    · exact ⟨w, by rw [hw], hwh⟩

theorem shortCircuit_head (currentWeatherData : Option WeatherData) (userMessage : String)
    (rand : RandomSource) (h : rand.WellFormed) :
    ∃ reply,
      (addPersonalityToResponse
        (generateWeatherSpecificResponse currentWeatherData userMessage rand).1
        (generateWeatherSpecificResponse currentWeatherData userMessage rand).2).1
          = some reply ∧
      head4 reply ∈ replyStarts.map head4 := by
  obtain ⟨s, e, hs⟩ := generateWeatherSpecificResponse_head currentWeatherData userMessage rand h
  rw [e]
  exact addPersonalityToResponse_head s _
    (generateWeatherSpecificResponse_wellFormed _ _ _ h) hs

theorem templates_head_not_start :
    ∀ t ∈ clothingResponses ++ activityResponses ++ forecastResponses,
      head4 t ∉ replyStarts.map head4 := by
  decide

/-- C27: when the lowercase text has a clothing or an activity keyword,
`generateBotResponse` returns from its first `if`, with the reply of
`generateWeatherSpecificResponse` passed through `addPersonalityToResponse`, and that
reply is no template of the `clothing` list and none of the `activities` list. -/
theorem clothing_activity_branches_unreachable (currentWeatherData : Option WeatherData)
    (rand : RandomSource) (userMessage : String) (h : rand.WellFormed)
    (ht : mentionsAny (toLowerCase userMessage) clothingKeywords = true ∨
      mentionsAny (toLowerCase userMessage) activityKeywords = true) :
    generateBotResponse currentWeatherData rand userMessage =
      (addPersonalityToResponse
        (generateWeatherSpecificResponse currentWeatherData userMessage rand).1
        (generateWeatherSpecificResponse currentWeatherData userMessage rand).2).1 ∧
    (∀ t ∈ clothingResponses,
      generateBotResponse currentWeatherData rand userMessage ≠ some t) ∧
    (∀ t ∈ activityResponses,
      generateBotResponse currentWeatherData rand userMessage ≠ some t) := by
  have e := generateBotResponse_of_trigger currentWeatherData rand userMessage h
    (trigger_of_mentions _ ht)
  obtain ⟨reply, hr, hh⟩ := shortCircuit_head currentWeatherData userMessage rand h
  refine ⟨e, ?_, ?_⟩
  · intro t ht2 hc
    rw [e, hr] at hc
    obtain rfl := Option.some.inj hc
    exact templates_head_not_start _ (by simp [ht2]) hh
  · intro t ht2 hc
    rw [e, hr] at hc
    obtain rfl := Option.some.inj hc
    exact templates_head_not_start _ (by simp [ht2]) hh

/-- Witness of C27 on `what should I wear` at 35 °C. -/
theorem clothing_activity_branches_unreachable_witness :
    (∀ t ∈ clothingResponses,
      generateBotResponse (some heatWave) alwaysHalf "what should I wear" ≠ some t) ∧
    (∀ t ∈ activityResponses,
      generateBotResponse (some heatWave) alwaysHalf "what should I wear" ≠ some t) :=
  (clothing_activity_branches_unreachable (some heatWave) alwaysHalf "what should I wear"
    alwaysHalf_wellFormed (Or.inl (by decide))).2

theorem forecast_templates_elsewhere :
    ∀ t ∈ forecastResponses,
      t ∉ greetingResponses ∧ t ∉ weatherResponses ∧ t ∉ clothingResponses ∧
      t ∉ activityResponses ∧ t ∉ airQualityResponses ∧ t ∉ thanksResponses ∧
      t ∉ helpResponses := by
  decide

theorem fallback_head (rand : RandomSource) (h : rand.WellFormed) :
    ∃ reply,
      (addPersonalityToResponse (getRandomResponse "unknown" rand).1
        (getRandomResponse "unknown" rand).2).1 = some reply ∧
      head4 reply ∈ replyStarts.map head4 := by
  obtain ⟨u, hu, e⟩ := getRandomResponse_mem "unknown" unknownResponses rand h rfl (by decide)
  rw [e]
  exact addPersonalityToResponse_head u rand.next (wellFormed_next rand h)
    (head4_mem_of_mem u (unknownResponses_subset u hu))

theorem temperatureReply_head (temp : ℚ) (clothing : Option String) :
    head4 (temperatureReply temp clothing) ∈ replyStarts.map head4 := by
  unfold temperatureReply
  rw [head4_append _ _ (length_append_ge _ _ (length_append_ge _ _ (length_append_ge _ _
      (length_append_ge _ _ (by decide))))),
    head4_append _ _ (length_append_ge _ _ (length_append_ge _ _ (length_append_ge _ _
      (by decide)))),
    head4_append _ _ (length_append_ge _ _ (length_append_ge _ _ (by decide))),
    head4_append _ _ (length_append_ge _ _ (by decide)), head4_append _ _ (by decide)]
  decide

theorem conditionReply_head (weather : String) (general : Option String) :
    head4 (conditionReply weather general) ∈ replyStarts.map head4 := by
  unfold conditionReply
  rw [head4_append _ _ (length_append_ge _ _ (length_append_ge _ _ (by decide))),
    head4_append _ _ (length_append_ge _ _ (by decide)), head4_append _ _ (by decide)]
  decide

theorem forecast_not_start (t reply : String) (ht : t ∈ forecastResponses)
    (hr : head4 reply ∈ replyStarts.map head4) : some reply ≠ some t := by
  intro hc
  obtain rfl := Option.some.inj hc
  exact templates_head_not_start _ (by simp [ht]) hr

theorem keywordDispatch_forecast_only (currentWeatherData : Option WeatherData)
    (message : String) (rand : RandomSource) (h : rand.WellFormed) (t : String)
    (ht : t ∈ forecastResponses)
    (e : keywordDispatch currentWeatherData message rand = some t) :
    firstIntent message = some "forecast" := by
  rw [keywordDispatch_eq] at e
  rw [firstIntent_eq]
  by_cases h1 : mentionsAny message ["hello", "hi", "hey"] = true
  · rw [if_pos h1] at e
    obtain ⟨t2, ht2, e2⟩ :=
      getRandomResponse_mem "greetings" greetingResponses rand h rfl (by decide)
    rw [e2] at e
    obtain rfl := Option.some.inj e
    exact absurd ht2 (forecast_templates_elsewhere _ ht).1
  rw [if_neg h1] at e ⊢
  by_cases h2 : mentionsAny message ["weather", "temperature", "forecast"] = true
  · rw [if_pos h2] at e
    obtain ⟨t2, ht2, e2⟩ :=
      getRandomResponse_mem "weather" weatherResponses rand h rfl (by decide)
    rw [e2] at e
    obtain rfl := Option.some.inj e
    exact absurd ht2 (forecast_templates_elsewhere _ ht).2.1
  rw [if_neg h2] at e ⊢
  by_cases h3 : mentionsAny message clothingKeywords = true
  · rw [if_pos h3] at e
    obtain ⟨t2, ht2, e2⟩ :=
      getRandomResponse_mem "clothing" clothingResponses rand h rfl (by decide)
    rw [e2] at e
    obtain rfl := Option.some.inj e
    exact absurd ht2 (forecast_templates_elsewhere _ ht).2.2.1
  rw [if_neg h3] at e ⊢
  by_cases h4 : mentionsAny message activityKeywords = true
  · rw [if_pos h4] at e
    obtain ⟨t2, ht2, e2⟩ :=
      getRandomResponse_mem "activities" activityResponses rand h rfl (by decide)
    rw [e2] at e
    obtain rfl := Option.some.inj e
    exact absurd ht2 (forecast_templates_elsewhere _ ht).2.2.2.1
  rw [if_neg h4] at e ⊢
  by_cases h5 : mentionsAny message ["air quality", "pollution", "air"] = true
  · rw [if_pos h5] at e
    obtain ⟨t2, ht2, e2⟩ :=
      getRandomResponse_mem "airQuality" airQualityResponses rand h rfl (by decide)
    rw [e2] at e
    obtain rfl := Option.some.inj e
    exact absurd ht2 (forecast_templates_elsewhere _ ht).2.2.2.2.1
  rw [if_neg h5] at e ⊢
  by_cases h6 : mentionsAny message ["thank", "thanks"] = true
  · rw [if_pos h6] at e
    obtain ⟨t2, ht2, e2⟩ :=
      getRandomResponse_mem "thanks" thanksResponses rand h rfl (by decide)
    rw [e2] at e
    obtain rfl := Option.some.inj e
    exact absurd ht2 (forecast_templates_elsewhere _ ht).2.2.2.2.2.1
  rw [if_neg h6] at e ⊢
  by_cases h7 : mentionsAny message ["forecast", "5 day", "future"] = true
  · rw [if_pos h7]
  rw [if_neg h7] at e ⊢
  by_cases h8 : mentionsAny message ["help", "what can you do", "assist"] = true
  · rw [if_pos h8] at e
    obtain ⟨t2, ht2, e2⟩ :=
      getRandomResponse_mem "help" helpResponses rand h rfl (by decide)
    rw [e2] at e
    obtain rfl := Option.some.inj e
    exact absurd ht2 (forecast_templates_elsewhere _ ht).2.2.2.2.2.2
  rw [if_neg h8] at e ⊢
  exfalso
  cases currentWeatherData with
  | none =>
    obtain ⟨reply, hr, hh⟩ := fallback_head rand h
    simp only at e
    rw [hr] at e
    exact forecast_not_start t reply ht hh e
  | some data =>
    simp only at e
    by_cases h9 : mentionsAny message ["hot", "cold", "warm"] = true
    · rw [if_pos h9] at e
      exact forecast_not_start t _ ht (temperatureReply_head _ _) e
    rw [if_neg h9] at e
    by_cases h10 : mentionsAny message ["rain", "sunny", "cloudy"] = true
    · rw [if_pos h10] at e
      exact forecast_not_start t _ ht (conditionReply_head _ _) e
    rw [if_neg h10] at e
    obtain ⟨reply, hr, hh⟩ := fallback_head rand h
    rw [hr] at e
    exact forecast_not_start t reply ht hh e

theorem firstIntent_forecast (message : String) (h : firstIntent message = some "forecast") :
    mentionsAny message ["hello", "hi", "hey"] = false ∧
    mentionsAny message ["weather", "temperature", "forecast"] = false ∧
    mentionsAny message clothingKeywords = false ∧
    mentionsAny message activityKeywords = false ∧
    mentionsAny message ["air quality", "pollution", "air"] = false ∧
    mentionsAny message ["thank", "thanks"] = false ∧
    mentionsAny message ["forecast", "5 day", "future"] = true := by
  rw [firstIntent_eq] at h
  by_cases h1 : mentionsAny message ["hello", "hi", "hey"] = true
  · rw [if_pos h1] at h
    exact absurd (Option.some.inj h) (by decide)
  rw [if_neg h1] at h
  by_cases h2 : mentionsAny message ["weather", "temperature", "forecast"] = true
  · rw [if_pos h2] at h
    exact absurd (Option.some.inj h) (by decide)
  rw [if_neg h2] at h
  by_cases h3 : mentionsAny message clothingKeywords = true
  · rw [if_pos h3] at h
    exact absurd (Option.some.inj h) (by decide)
  rw [if_neg h3] at h
  by_cases h4 : mentionsAny message activityKeywords = true
  · rw [if_pos h4] at h
    exact absurd (Option.some.inj h) (by decide)
  rw [if_neg h4] at h
  by_cases h5 : mentionsAny message ["air quality", "pollution", "air"] = true
  · rw [if_pos h5] at h
    exact absurd (Option.some.inj h) (by decide)
  rw [if_neg h5] at h
  by_cases h6 : mentionsAny message ["thank", "thanks"] = true
  · rw [if_pos h6] at h
    exact absurd (Option.some.inj h) (by decide)
  rw [if_neg h6] at h
  by_cases h7 : mentionsAny message ["forecast", "5 day", "future"] = true
  · exact ⟨Bool.eq_false_iff.2 h1, Bool.eq_false_iff.2 h2, Bool.eq_false_iff.2 h3,
      Bool.eq_false_iff.2 h4, Bool.eq_false_iff.2 h5, Bool.eq_false_iff.2 h6, h7⟩
  rw [if_neg h7] at h
  by_cases h8 : mentionsAny message ["help", "what can you do", "assist"] = true
  · rw [if_pos h8] at h
    exact absurd (Option.some.inj h) (by decide)
  rw [if_neg h8] at h
  exact Option.noConfusion h

theorem generateBotResponse_forecast_only (currentWeatherData : Option WeatherData)
    (rand : RandomSource) (userMessage : String) (h : rand.WellFormed) (t : String)
    (ht : t ∈ forecastResponses)
    (e : generateBotResponse currentWeatherData rand userMessage = some t) :
    firstIntent (toLowerCase userMessage) = some "forecast" := by
  cases htr : weatherSpecificTrigger (toLowerCase userMessage) with
  | true =>
    rw [generateBotResponse_of_trigger _ _ _ h htr] at e
    obtain ⟨reply, hr, hh⟩ := shortCircuit_head currentWeatherData userMessage rand h
    rw [hr] at e
    exact absurd e (forecast_not_start t reply ht hh)
  | false =>
    rw [generateBotResponse_of_not_trigger _ _ _ htr] at e
    exact keywordDispatch_forecast_only _ _ _ h t ht e

/-- C28: a text whose lowercase form contains `forecast` never gets a template of the
Forecast list, since `forecast` is a WeatherGeneral keyword and that category is checked
earlier; a Forecast template is the reply only when the lowercase text contains `5 day`
or `future` and no keyword of the Greeting, WeatherGeneral, Clothing, Activities,
AirQuality and Thanks categories. -/
theorem forecast_templates_only_without_forecast (currentWeatherData : Option WeatherData)
    (rand : RandomSource) (userMessage : String) (h : rand.WellFormed) :
    (includes (toLowerCase userMessage) "forecast" = true →
      ∀ t ∈ forecastResponses,
        generateBotResponse currentWeatherData rand userMessage ≠ some t) ∧
    (∀ t ∈ forecastResponses,
      generateBotResponse currentWeatherData rand userMessage = some t →
        (includes (toLowerCase userMessage) "5 day" = true ∨
          includes (toLowerCase userMessage) "future" = true) ∧
        includes (toLowerCase userMessage) "forecast" = false ∧
        mentionsAny (toLowerCase userMessage) ["hello", "hi", "hey"] = false ∧
        mentionsAny (toLowerCase userMessage) ["weather", "temperature", "forecast"] = false ∧
        mentionsAny (toLowerCase userMessage) clothingKeywords = false ∧
        mentionsAny (toLowerCase userMessage) activityKeywords = false ∧
        mentionsAny (toLowerCase userMessage) ["air quality", "pollution", "air"] = false ∧
        mentionsAny (toLowerCase userMessage) ["thank", "thanks"] = false) := by
  have key : ∀ t ∈ forecastResponses,
      generateBotResponse currentWeatherData rand userMessage = some t →
        (includes (toLowerCase userMessage) "5 day" = true ∨
          includes (toLowerCase userMessage) "future" = true) ∧
        includes (toLowerCase userMessage) "forecast" = false ∧
        mentionsAny (toLowerCase userMessage) ["hello", "hi", "hey"] = false ∧
        mentionsAny (toLowerCase userMessage) ["weather", "temperature", "forecast"] = false ∧
        mentionsAny (toLowerCase userMessage) clothingKeywords = false ∧
        mentionsAny (toLowerCase userMessage) activityKeywords = false ∧
        mentionsAny (toLowerCase userMessage) ["air quality", "pollution", "air"] = false ∧
        mentionsAny (toLowerCase userMessage) ["thank", "thanks"] = false := by
    intro t ht e
    obtain ⟨h1, h2, h3, h4, h5, h6, h7⟩ :=
      firstIntent_forecast _ (generateBotResponse_forecast_only _ _ _ h t ht e)
    have hf : includes (toLowerCase userMessage) "forecast" = false := by
      rw [mentionsAny_three] at h2
      simp only [Bool.or_eq_false_iff] at h2
      exact h2.2
    refine ⟨?_, hf, h1, h2, h3, h4, h5, h6⟩
    rw [mentionsAny_three, hf] at h7
    simpa using h7
  refine ⟨?_, key⟩
  intro hf t ht e
  have := (key t ht e).2.1
  rw [hf] at this
  exact Bool.noConfusion this

/-- Witness of C28 on `5 day forecast` and on `the future`, without a current
observation. -/
theorem forecast_templates_only_without_forecast_witness :
    (∀ t ∈ forecastResponses,
      generateBotResponse none alwaysHalf "5 day forecast" ≠ some t) ∧
    generateBotResponse none alwaysHalf "the future" = forecastResponses[1]? ∧
    includes (toLowerCase "the future") "forecast" = false :=
  ⟨(forecast_templates_only_without_forecast none alwaysHalf "5 day forecast"
      alwaysHalf_wellFormed).1 (by decide),
    by decide!,
    ((forecast_templates_only_without_forecast none alwaysHalf "the future"
      alwaysHalf_wellFormed).2 (forecastResponses.getD 1 "") (by decide) (by decide!)).2.1⟩

end WeatherApp
